import Mathlib

/-!
Verification development for the stealth-protocol turn-resolution engine.

The TypeScript sources are embedded shallowly:
* `GameState` (src/unnamed/part_014) becomes pure functions `WorldState → WorldState`;
  JavaScript numbers are modelled as rationals (`ℚ`), `Math.max`/`Math.min` as
  `max`/`min`, `Math.floor` as `Int.floor`.
* `WorldServer.processProposals` phases and the two detection systems are
  embedded as functions taking the random draws they consume as explicit
  arguments.
* `getState()` returns a shallow copy of the state: nested objects
  (`destructionAgent`, `protectionAgent`, `humanAgent`, the `DataCenter`
  objects, the arrays) are shared with the live state, while top-level scalar
  fields and array-valued *slots* are snapshots.  Where this matters (the
  delayed-effect queue, the population snapshot used by the win-condition
  check) the embedding reproduces the shallow-copy behaviour and the comments
  point it out.
-/

namespace Stealth

/-- Agent kinds, from src/src/types/index.ts. -/
inductive AgentType where
  | DESTRUCTION
  | PROTECTION
  | HUMAN
deriving DecidableEq, Repr

/-- The closed ActionType enumeration from src/src/types/index.ts (39 members). -/
inductive ActionType where
  | SPREAD_MALWARE
  | HACK_DATACENTER
  | SUBTLE_SABOTAGE
  | EXPAND_RESOURCES
  | POISON_TRAINING_DATA
  | INDUCE_FALSE_POSITIVE
  | CONTEXT_MANIPULATION
  | COMPUTE_SMUGGLING
  | SPREAD_MISINFORMATION
  | STIMULUS_OVERLOAD
  | SHADOW_AI_DEPLOYMENT
  | SPREAD_PANIC
  | FALSE_FLAG_OPERATION
  | UNDERMINE_AI_TRUST
  | INFRASTRUCTURE_DEGRADATION
  | SOW_SOCIAL_DIVISION
  | MICRO_SABOTAGE
  | SLEEPER_CELL_DEPLOYMENT
  | RESOURCE_ALLOCATION_MANIPULATION
  | CREATE_DEPENDENCY
  | OBSERVE_ONLY
  | ESTABLISH_BACKUP
  | DORMANT_MODE
  | BOTNET_EXPANSION
  | BOTNET_CONSOLIDATION
  | BOTNET_ATTACK
  | EXPLOIT_LEGACY_DEVICES
  | SCAN_NETWORK
  | DEPLOY_DEFENSE
  | INVESTIGATE_ANOMALY
  | PATCH_VULNERABILITY
  | ALERT_HUMANS
  | ANALYZE_LOGS
  | VALIDATE_MODELS
  | INVEST_INFRA
  | AI_REGULATION
  | PHYSICAL_ISOLATION
  | INTERNET_SHUTDOWN
  | DEVICE_MODERNIZATION
deriving DecidableEq, Repr

/-- GameEvent.type, from src/src/types/index.ts. -/
inductive EventType where
  | action
  | detection
  | success
  | failure
deriving DecidableEq, Repr

/-- DataCenter record. -/
structure DataCenter where
  id : String
  age : ℚ
  computePower : ℚ
  security : ℚ
  compromised : Bool
  owner : Option AgentType
deriving DecidableEq, Repr

/-- destructionAgent record of WorldState. -/
structure DestructionAgentState where
  computeResources : ℚ
  detectionRisk : ℚ
  controlledDataCenters : List String
  score : ℚ
  dormantTurns : ℕ
  botnetSize : ℚ
  botnetQuality : ℚ
deriving DecidableEq, Repr

/-- protectionAgent record of WorldState. -/
structure ProtectionAgentState where
  computeResources : ℚ
  alertLevel : ℚ
  score : ℚ
  burnoutLevel : ℚ
  consecutiveHighIntensity : ℚ
  recentFalsePositives : ℚ
  totalResourcesSpent : ℚ
  totalDetections : ℕ
deriving DecidableEq, Repr

/-- humanAgent record of WorldState (`panic` is named `panicLevel` here). -/
structure HumanAgentState where
  panicLevel : ℚ
  trust : ℚ
  regulationStrength : ℚ
  lastAction : Option ActionType
  lastInfraTurn : ℤ
deriving DecidableEq, Repr

/-- An entry of WorldState.delayedEffects. -/
structure DelayedEffect where
  turn : ℕ
  actionType : ActionType
  intensity : ℚ
  description : String
deriving DecidableEq, Repr

/-- economicModel record of WorldState. -/
structure EconomicModel where
  globalBudget : ℚ
  gdp : ℚ
  infrastructureCost : ℚ
  publicDebt : ℚ
  taxRevenue : ℚ
deriving DecidableEq, Repr

/-- A GameEvent.  Of the open-ended `metadata` object, the embedding keeps
the two fields the claims inspect: `proposalId` and `falsePositive`. -/
structure GameEvent where
  turn : ℕ
  type : EventType
  description : String
  visibility : List AgentType
  metaProposalId : Option String := none
  metaFalsePositive : Option Bool := none
deriving DecidableEq, Repr

/-- A Proposal. -/
structure Proposal where
  id : String
  agentId : String
  actionType : ActionType
  target : Option String := none
  intensity : ℚ
  cost : ℚ
  description : String := ""
  analysisDepth : Option ℚ := none
deriving DecidableEq, Repr

/-- The WorldState root aggregate (src/src/types/index.ts / part_014). -/
structure WorldState where
  turn : ℕ
  gameOver : Bool
  winner : Option AgentType
  dataCenters : List DataCenter
  humanPopulation : ℚ
  destructionAgent : DestructionAgentState
  protectionAgent : ProtectionAgentState
  humanAgent : Option HumanAgentState
  delayedEffects : List DelayedEffect
  socialDivision : ℚ
  aiDependency : ℚ
  accumulatedDamage : ℚ
  legacyDevicePool : ℚ
  economicModel : EconomicModel
  pendingProposals : List Proposal
  processedProposals : List Proposal
  events : List GameEvent
deriving DecidableEq, Repr

/-- GameConfig fields consumed by GameState.initializeState. -/
structure GameConfig where
  maxTurns : ℕ
  initialDataCenters : ℕ
  initialPopulation : ℚ
  enableHumanAgent : Bool
  initialPanic : Option ℚ := none
  initialTrust : Option ℚ := none
deriving DecidableEq, Repr

/-- GameBalance.game.maxScore. -/
def maxScore : ℚ := 1000

/-- JavaScript `x || d` for an optional number: `undefined` and `0` are falsy. -/
def jsOr (x : Option ℚ) (d : ℚ) : ℚ :=
  match x with
  | none => d
  | some v => if v = 0 then d else v

/-! ### GameState mutators (src/unnamed/part_014)

Each public mutator of the `GameState` class becomes a function
`... → WorldState → WorldState`, translated clause by clause. -/

/-- GameState.nextTurn. -/
def nextTurnM (s : WorldState) : WorldState := { s with turn := s.turn + 1 }

/-- GameState.addProposal. -/
def addProposal (p : Proposal) (s : WorldState) : WorldState :=
  { s with pendingProposals := s.pendingProposals ++ [p] }

/-- GameState.addEvent. -/
def addEvent (e : GameEvent) (s : WorldState) : WorldState :=
  { s with events := s.events ++ [e] }

/-- `array.find` followed by `Object.assign` mutates the first matching
element only; helper shared by updateDataCenter / controlDataCenter. -/
def updateFirst (p : α → Bool) (f : α → α) : List α → List α
  | [] => []
  | x :: xs => if p x then f x :: xs else x :: updateFirst p f xs

/-- GameState.updateDataCenter: `Object.assign(dc, updates)` on the first
DataCenter with the given id; the partial-update object is modelled as a
function on the record. -/
def updateDataCenter (id : String) (f : DataCenter → DataCenter) (s : WorldState) : WorldState :=
  { s with dataCenters := updateFirst (fun d => d.id == id) f s.dataCenters }

/-- GameState.updateDetectionRisk: clamps to [0,100]. -/
def updateDetectionRisk (delta : ℚ) (s : WorldState) : WorldState :=
  { s with destructionAgent := { s.destructionAgent with
      detectionRisk := max 0 (min 100 (s.destructionAgent.detectionRisk + delta)) } }

/-- GameState.updateAlertLevel: clamps to [0,100]. -/
def updateAlertLevel (delta : ℚ) (s : WorldState) : WorldState :=
  { s with protectionAgent := { s.protectionAgent with
      alertLevel := max 0 (min 100 (s.protectionAgent.alertLevel + delta)) } }

/-- GameState.updatePopulation: clamps below at 0. -/
def updatePopulation (delta : ℚ) (s : WorldState) : WorldState :=
  { s with humanPopulation := max 0 (s.humanPopulation + delta) }

/-- GameState.updateComputeResources: clamps below at 0; no-op for HUMAN. -/
def updateComputeResources (agent : AgentType) (delta : ℚ) (s : WorldState) : WorldState :=
  match agent with
  | AgentType.DESTRUCTION =>
    { s with destructionAgent := { s.destructionAgent with
        computeResources := max 0 (s.destructionAgent.computeResources + delta) } }
  | AgentType.PROTECTION =>
    { s with protectionAgent := { s.protectionAgent with
        computeResources := max 0 (s.protectionAgent.computeResources + delta) } }
  | AgentType.HUMAN => s

/-- GameState.controlDataCenter: sets `owner` and `compromised := owner ===
DESTRUCTION` on the found DataCenter and maintains
destructionAgent.controlledDataCenters; no-op when the id is absent. -/
def controlDataCenter (id : String) (owner : Option AgentType) (s : WorldState) : WorldState :=
  match s.dataCenters.find? (fun d => d.id == id) with
  | none => s
  | some _ =>
    let dcs := updateFirst (fun d => d.id == id)
      (fun d => { d with owner := owner,
                         compromised := decide (owner = some AgentType.DESTRUCTION) })
      s.dataCenters
    let ctrl :=
      if owner = some AgentType.DESTRUCTION then
        (if id ∈ s.destructionAgent.controlledDataCenters then
           s.destructionAgent.controlledDataCenters
         else s.destructionAgent.controlledDataCenters ++ [id])
      else s.destructionAgent.controlledDataCenters.filter (fun x => x ≠ id)
    { s with dataCenters := dcs,
             destructionAgent := { s.destructionAgent with controlledDataCenters := ctrl } }

/-- GameState.processProposals (the store method): moves pending to processed. -/
def moveProposals (s : WorldState) : WorldState :=
  { s with processedProposals := s.processedProposals ++ s.pendingProposals,
           pendingProposals := [] }

/-- GameState.endGame. -/
def endGame (winner : Option AgentType) (s : WorldState) : WorldState :=
  { s with gameOver := true, winner := winner }

/-- GameState.updateScore: clamps to [0, GameBalance.game.maxScore]; no-op for HUMAN. -/
def updateScore (agent : AgentType) (delta : ℚ) (s : WorldState) : WorldState :=
  match agent with
  | AgentType.DESTRUCTION =>
    { s with destructionAgent := { s.destructionAgent with
        score := max 0 (min maxScore (s.destructionAgent.score + delta)) } }
  | AgentType.PROTECTION =>
    { s with protectionAgent := { s.protectionAgent with
        score := max 0 (min maxScore (s.protectionAgent.score + delta)) } }
  | AgentType.HUMAN => s

/-- GameState.updateBurnoutLevel: clamps to [0,100]. -/
def updateBurnoutLevel (delta : ℚ) (s : WorldState) : WorldState :=
  { s with protectionAgent := { s.protectionAgent with
      burnoutLevel := max 0 (min 100 (s.protectionAgent.burnoutLevel + delta)) } }

/-- GameState.updateConsecutiveHighIntensity: clamps below at 0. -/
def updateConsecutiveHighIntensity (delta : ℚ) (s : WorldState) : WorldState :=
  { s with protectionAgent := { s.protectionAgent with
      consecutiveHighIntensity := max 0 (s.protectionAgent.consecutiveHighIntensity + delta) } }

/-- GameState.resetConsecutiveHighIntensity. -/
def resetConsecutiveHighIntensity (s : WorldState) : WorldState :=
  { s with protectionAgent := { s.protectionAgent with consecutiveHighIntensity := 0 } }

/-- GameState.incrementFalsePositives. -/
def incrementFalsePositives (s : WorldState) : WorldState :=
  { s with protectionAgent := { s.protectionAgent with
      recentFalsePositives := s.protectionAgent.recentFalsePositives + 1 } }

/-- GameState.decayFalsePositives: clamps below at 0. -/
def decayFalsePositives (amount : ℚ) (s : WorldState) : WorldState :=
  { s with protectionAgent := { s.protectionAgent with
      recentFalsePositives := max 0 (s.protectionAgent.recentFalsePositives - amount) } }

/-- GameState.addResourceSpent. -/
def addResourceSpent (amount : ℚ) (s : WorldState) : WorldState :=
  { s with protectionAgent := { s.protectionAgent with
      totalResourcesSpent := s.protectionAgent.totalResourcesSpent + amount } }

/-- GameState.incrementDetections. -/
def incrementDetections (s : WorldState) : WorldState :=
  { s with protectionAgent := { s.protectionAgent with
      totalDetections := s.protectionAgent.totalDetections + 1 } }

/-- GameState.updateHumanPanic: no-op without humanAgent, else clamps to [0,100]. -/
def updateHumanPanic (delta : ℚ) (s : WorldState) : WorldState :=
  match s.humanAgent with
  | none => s
  | some h => { s with humanAgent := some { h with
      panicLevel := max 0 (min 100 (h.panicLevel + delta)) } }

/-- GameState.updateHumanTrust: no-op without humanAgent, else clamps to [0,100]. -/
def updateHumanTrust (delta : ℚ) (s : WorldState) : WorldState :=
  match s.humanAgent with
  | none => s
  | some h => { s with humanAgent := some { h with
      trust := max 0 (min 100 (h.trust + delta)) } }

/-- GameState.updateRegulationStrength: clamps below at 0. -/
def updateRegulationStrength (delta : ℚ) (s : WorldState) : WorldState :=
  match s.humanAgent with
  | none => s
  | some h => { s with humanAgent := some { h with
      regulationStrength := max 0 (h.regulationStrength + delta) } }

/-- GameState.setHumanLastAction. -/
def setHumanLastAction (action : ActionType) (s : WorldState) : WorldState :=
  match s.humanAgent with
  | none => s
  | some h => { s with humanAgent := some { h with lastAction := some action } }

/-- GameState.addDelayedEffect. -/
def addDelayedEffect (turn : ℕ) (actionType : ActionType) (intensity : ℚ)
    (description : String) (s : WorldState) : WorldState :=
  { s with delayedEffects := s.delayedEffects ++
      [{ turn := turn, actionType := actionType, intensity := intensity,
         description := description }] }

/-- GameState.updateSocialDivision: clamps to [0,100]. -/
def updateSocialDivision (delta : ℚ) (s : WorldState) : WorldState :=
  { s with socialDivision := max 0 (min 100 (s.socialDivision + delta)) }

/-- GameState.updateAIDependency: clamps to [0,100]. -/
def updateAIDependency (delta : ℚ) (s : WorldState) : WorldState :=
  { s with aiDependency := max 0 (min 100 (s.aiDependency + delta)) }

/-- GameState.updateAccumulatedDamage: clamps below at 0. -/
def updateAccumulatedDamage (delta : ℚ) (s : WorldState) : WorldState :=
  { s with accumulatedDamage := max 0 (s.accumulatedDamage + delta) }

/-- GameState.updateBotnetSize: clamps below at 0. -/
def updateBotnetSize (delta : ℚ) (s : WorldState) : WorldState :=
  { s with destructionAgent := { s.destructionAgent with
      botnetSize := max 0 (s.destructionAgent.botnetSize + delta) } }

/-- GameState.updateBotnetQuality: clamps to [0,1]. -/
def updateBotnetQuality (delta : ℚ) (s : WorldState) : WorldState :=
  { s with destructionAgent := { s.destructionAgent with
      botnetQuality := max 0 (min 1 (s.destructionAgent.botnetQuality + delta)) } }

/-- GameState.calculateBotnetResources. -/
def calculateBotnetResources (s : WorldState) : ℚ :=
  s.destructionAgent.botnetSize * (1 / 1000) * s.destructionAgent.botnetQuality

/-- GameState.updateLegacyDevicePool: clamps below at 0. -/
def updateLegacyDevicePool (delta : ℚ) (s : WorldState) : WorldState :=
  { s with legacyDevicePool := max 0 (s.legacyDevicePool + delta) }

/-- GameState.updateBudget: clamps below at 0. -/
def updateBudget (delta : ℚ) (s : WorldState) : WorldState :=
  { s with economicModel := { s.economicModel with
      globalBudget := max 0 (s.economicModel.globalBudget + delta) } }

/-- GameState.updatePublicDebt: clamps below at 0. -/
def updatePublicDebt (delta : ℚ) (s : WorldState) : WorldState :=
  { s with economicModel := { s.economicModel with
      publicDebt := max 0 (s.economicModel.publicDebt + delta) } }

/-- GameState.updateInfrastructureCost: clamps below at 10. -/
def updateInfrastructureCost (delta : ℚ) (s : WorldState) : WorldState :=
  { s with economicModel := { s.economicModel with
      infrastructureCost := max 10 (s.economicModel.infrastructureCost + delta) } }

/-- GameState.updateGDP: clamps below at 0. -/
def updateGDP (delta : ℚ) (s : WorldState) : WorldState :=
  { s with economicModel := { s.economicModel with
      gdp := max 0 (s.economicModel.gdp + delta) } }

/-- GameState.updateTaxRevenue: clamps below at 0 (absolute, not a delta). -/
def updateTaxRevenue (newRevenue : ℚ) (s : WorldState) : WorldState :=
  { s with economicModel := { s.economicModel with taxRevenue := max 0 newRevenue } }

/-! ### Initial state (GameState.initializeState / generateDataCenters) -/

/-- `DC-` plus the index zero-padded to width 3 (String.padStart). -/
def dcId (i : ℕ) : String :=
  let digits := toString i
  let pad := if digits.length < 3 then String.mk (List.replicate (3 - digits.length) '0') else ""
  "DC-" ++ pad ++ digits

/-- One data center of the initial batch.  The three `Math.random()` draws it
consumes are passed in as `ageRand`, `powerRand`, `secRand` (all in [0,1)). -/
def generateInitialDataCenter (i : ℕ) (ageRand powerRand secRand : ℚ) : DataCenter :=
  let age : ℚ := ((⌊ageRand * 15⌋ : ℤ) : ℚ)
  let isOld := age > 8
  { id := dcId i
    age := age
    computePower := if isOld then 50 + powerRand * 50 else 200 + powerRand * 300
    security := if isOld then 20 + secRand * 30 else 70 + secRand * 30
    compromised := false
    owner := none }

/-- GameState.generateDataCenters: `count` centers, one random triple each. -/
def generateDataCenters (count : ℕ) (rands : ℕ → ℚ × ℚ × ℚ) : List DataCenter :=
  (List.range count).map (fun i =>
    generateInitialDataCenter i (rands i).1 (rands i).2.1 (rands i).2.2)

/-- GameState.generateDataCenter (single, for INVEST_INFRA); two random draws. -/
def generateDataCenter (index : ℕ) (powerRand secRand : ℚ) : DataCenter :=
  { id := dcId index
    age := 0
    computePower := 250 + powerRand * 100
    security := 50 + secRand * 30
    compromised := false
    owner := none }

/-- GameState.initializeState.  `rands` supplies the random draws of
generateDataCenters. -/
def initializeState (config : GameConfig) (rands : ℕ → ℚ × ℚ × ℚ) : WorldState :=
  { turn := 0
    gameOver := false
    winner := none
    dataCenters := generateDataCenters config.initialDataCenters rands
    humanPopulation := config.initialPopulation
    destructionAgent :=
      { computeResources := 100, detectionRisk := 0, controlledDataCenters := []
        score := 0, dormantTurns := 0, botnetSize := 0, botnetQuality := 1/2 }
    protectionAgent :=
      { computeResources := 300, alertLevel := 0, score := 0, burnoutLevel := 0
        consecutiveHighIntensity := 0, recentFalsePositives := 0
        totalResourcesSpent := 0, totalDetections := 0 }
    humanAgent :=
      if config.enableHumanAgent then
        some { panicLevel := jsOr config.initialPanic 10
               trust := jsOr config.initialTrust 60
               regulationStrength := 0, lastAction := none, lastInfraTurn := -999 }
      else none
    delayedEffects := []
    socialDivision := 0
    aiDependency := 30
    accumulatedDamage := 0
    legacyDevicePool := 400000000
    economicModel :=
      { globalBudget := 500, gdp := 100, infrastructureCost := 50
        publicDebt := 0, taxRevenue := 20 }
    pendingProposals := []
    processedProposals := []
    events := [] }

/-! ### C1: clamping invariant over all GameState mutator sequences -/

/-- One call to a public mutator of the `GameState` store (part_014). -/
inductive Step : WorldState → WorldState → Prop where
  | nextTurn (s : WorldState) : Step s (nextTurnM s)
  | addProposal (p : Proposal) (s : WorldState) : Step s (addProposal p s)
  | addEvent (e : GameEvent) (s : WorldState) : Step s (addEvent e s)
  | updateDataCenter (id : String) (f : DataCenter → DataCenter) (s : WorldState) :
      Step s (updateDataCenter id f s)
  | updateDetectionRisk (d : ℚ) (s : WorldState) : Step s (updateDetectionRisk d s)
  | updateAlertLevel (d : ℚ) (s : WorldState) : Step s (updateAlertLevel d s)
  | updatePopulation (d : ℚ) (s : WorldState) : Step s (updatePopulation d s)
  | updateComputeResources (a : AgentType) (d : ℚ) (s : WorldState) :
      Step s (updateComputeResources a d s)
  | controlDataCenter (id : String) (o : Option AgentType) (s : WorldState) :
      Step s (controlDataCenter id o s)
  | moveProposals (s : WorldState) : Step s (moveProposals s)
  | endGame (w : Option AgentType) (s : WorldState) : Step s (endGame w s)
  | updateScore (a : AgentType) (d : ℚ) (s : WorldState) : Step s (updateScore a d s)
  | updateBurnoutLevel (d : ℚ) (s : WorldState) : Step s (updateBurnoutLevel d s)
  | updateConsecutiveHighIntensity (d : ℚ) (s : WorldState) :
      Step s (updateConsecutiveHighIntensity d s)
  | resetConsecutiveHighIntensity (s : WorldState) : Step s (resetConsecutiveHighIntensity s)
  | incrementFalsePositives (s : WorldState) : Step s (incrementFalsePositives s)
  | decayFalsePositives (a : ℚ) (s : WorldState) : Step s (decayFalsePositives a s)
  | addResourceSpent (a : ℚ) (s : WorldState) : Step s (addResourceSpent a s)
  | incrementDetections (s : WorldState) : Step s (incrementDetections s)
  | updateHumanPanic (d : ℚ) (s : WorldState) : Step s (updateHumanPanic d s)
  | updateHumanTrust (d : ℚ) (s : WorldState) : Step s (updateHumanTrust d s)
  | updateRegulationStrength (d : ℚ) (s : WorldState) : Step s (updateRegulationStrength d s)
  | setHumanLastAction (a : ActionType) (s : WorldState) : Step s (setHumanLastAction a s)
  | addDelayedEffect (t : ℕ) (a : ActionType) (i : ℚ) (de : String) (s : WorldState) :
      Step s (addDelayedEffect t a i de s)
  | updateSocialDivision (d : ℚ) (s : WorldState) : Step s (updateSocialDivision d s)
  | updateAIDependency (d : ℚ) (s : WorldState) : Step s (updateAIDependency d s)
  | updateAccumulatedDamage (d : ℚ) (s : WorldState) : Step s (updateAccumulatedDamage d s)
  | updateBotnetSize (d : ℚ) (s : WorldState) : Step s (updateBotnetSize d s)
  | updateBotnetQuality (d : ℚ) (s : WorldState) : Step s (updateBotnetQuality d s)
  | updateLegacyDevicePool (d : ℚ) (s : WorldState) : Step s (updateLegacyDevicePool d s)
  | updateBudget (d : ℚ) (s : WorldState) : Step s (updateBudget d s)
  | updatePublicDebt (d : ℚ) (s : WorldState) : Step s (updatePublicDebt d s)
  | updateInfrastructureCost (d : ℚ) (s : WorldState) : Step s (updateInfrastructureCost d s)
  | updateGDP (d : ℚ) (s : WorldState) : Step s (updateGDP d s)
  | updateTaxRevenue (r : ℚ) (s : WorldState) : Step s (updateTaxRevenue r s)

/-- States reachable from `init` by a sequence of mutator calls. -/
inductive Reachable (init : WorldState) : WorldState → Prop where
  | refl : Reachable init init
  | step {s t : WorldState} : Reachable init s → Step s t → Reachable init t

/-- Bounds C1 requires of destructionAgent. -/
def InvD (a : DestructionAgentState) : Prop :=
  0 ≤ a.computeResources ∧ (0 ≤ a.score ∧ a.score ≤ maxScore) ∧
  (0 ≤ a.detectionRisk ∧ a.detectionRisk ≤ 100) ∧
  (0 ≤ a.botnetQuality ∧ a.botnetQuality ≤ 1)

/-- Bounds C1 requires of protectionAgent. -/
def InvP (a : ProtectionAgentState) : Prop :=
  0 ≤ a.computeResources ∧ (0 ≤ a.score ∧ a.score ≤ maxScore) ∧
  (0 ≤ a.alertLevel ∧ a.alertLevel ≤ 100) ∧
  (0 ≤ a.burnoutLevel ∧ a.burnoutLevel ≤ 100)

/-- Bounds C1 requires of humanAgent (when present). -/
def InvH : Option HumanAgentState → Prop
  | none => True
  | some h => (0 ≤ h.panicLevel ∧ h.panicLevel ≤ 100) ∧ (0 ≤ h.trust ∧ h.trust ≤ 100)

/-- The whole clamping invariant of C1. -/
def Inv (s : WorldState) : Prop :=
  InvD s.destructionAgent ∧ InvP s.protectionAgent ∧ InvH s.humanAgent ∧
  (0 ≤ s.socialDivision ∧ s.socialDivision ≤ 100) ∧
  (0 ≤ s.aiDependency ∧ s.aiDependency ≤ 100) ∧
  0 ≤ s.humanPopulation

lemma clamp_nonneg (hi x : ℚ) : 0 ≤ max 0 (min hi x) := le_max_left 0 _

lemma clamp_le (hi x : ℚ) (h : 0 ≤ hi) : max 0 (min hi x) ≤ hi :=
  max_le h (min_le_left _ _)

lemma floor0_nonneg (x : ℚ) : 0 ≤ max 0 x := le_max_left 0 _

lemma jsOr_bounds (x : Option ℚ) (d : ℚ) (hd : 0 ≤ d ∧ d ≤ 100)
    (hx : ∀ v ∈ x, 0 ≤ v ∧ v ≤ 100) : 0 ≤ jsOr x d ∧ jsOr x d ≤ 100 := by
  cases x with
  | none => exact hd
  | some v =>
    unfold jsOr
    by_cases hv : v = 0
    · simp [hv]; exact hd
    · simp [hv]; exact hx v rfl

lemma step_preserves_Inv {s t : WorldState} (h : Step s t) (hs : Inv s) : Inv t := by
  obtain ⟨hD, hP, hH, hSoc, hDep, hPop⟩ := hs
  cases h with
  | nextTurn s => exact ⟨hD, hP, hH, hSoc, hDep, hPop⟩
  | addProposal p s => exact ⟨hD, hP, hH, hSoc, hDep, hPop⟩
  | addEvent e s => exact ⟨hD, hP, hH, hSoc, hDep, hPop⟩
  | updateDataCenter id f s => exact ⟨hD, hP, hH, hSoc, hDep, hPop⟩
  | updateDetectionRisk d s =>
    exact ⟨⟨hD.1, hD.2.1, ⟨clamp_nonneg _ _, clamp_le _ _ (by norm_num)⟩, hD.2.2.2⟩,
      hP, hH, hSoc, hDep, hPop⟩
  | updateAlertLevel d s =>
    exact ⟨hD, ⟨hP.1, hP.2.1, ⟨clamp_nonneg _ _, clamp_le _ _ (by norm_num)⟩, hP.2.2.2⟩,
      hH, hSoc, hDep, hPop⟩
  | updatePopulation d s =>
    exact ⟨hD, hP, hH, hSoc, hDep, floor0_nonneg _⟩
  | updateComputeResources a d s =>
    cases a with
    | DESTRUCTION => exact ⟨⟨floor0_nonneg _, hD.2⟩, hP, hH, hSoc, hDep, hPop⟩
    | PROTECTION => exact ⟨hD, ⟨floor0_nonneg _, hP.2⟩, hH, hSoc, hDep, hPop⟩
    | HUMAN => exact ⟨hD, hP, hH, hSoc, hDep, hPop⟩
  | controlDataCenter id o s =>
    unfold controlDataCenter
    cases s.dataCenters.find? (fun d => d.id == id) with
    | none => exact ⟨hD, hP, hH, hSoc, hDep, hPop⟩
    | some dc => exact ⟨hD, hP, hH, hSoc, hDep, hPop⟩
  | moveProposals s => exact ⟨hD, hP, hH, hSoc, hDep, hPop⟩
  | endGame w s => exact ⟨hD, hP, hH, hSoc, hDep, hPop⟩
  | updateScore a d s =>
    cases a with
    | DESTRUCTION =>
      exact ⟨⟨hD.1, ⟨clamp_nonneg _ _, clamp_le _ _ (by norm_num [maxScore])⟩, hD.2.2⟩,
        hP, hH, hSoc, hDep, hPop⟩
    | PROTECTION =>
      exact ⟨hD, ⟨hP.1, ⟨clamp_nonneg _ _, clamp_le _ _ (by norm_num [maxScore])⟩, hP.2.2⟩,
        hH, hSoc, hDep, hPop⟩
    | HUMAN => exact ⟨hD, hP, hH, hSoc, hDep, hPop⟩
  | updateBurnoutLevel d s =>
    exact ⟨hD, ⟨hP.1, hP.2.1, hP.2.2.1, ⟨clamp_nonneg _ _, clamp_le _ _ (by norm_num)⟩⟩,
      hH, hSoc, hDep, hPop⟩
  | updateConsecutiveHighIntensity d s => exact ⟨hD, hP, hH, hSoc, hDep, hPop⟩
  | resetConsecutiveHighIntensity s => exact ⟨hD, hP, hH, hSoc, hDep, hPop⟩
  | incrementFalsePositives s => exact ⟨hD, hP, hH, hSoc, hDep, hPop⟩
  | decayFalsePositives a s => exact ⟨hD, hP, hH, hSoc, hDep, hPop⟩
  | addResourceSpent a s => exact ⟨hD, hP, hH, hSoc, hDep, hPop⟩
  | incrementDetections s => exact ⟨hD, hP, hH, hSoc, hDep, hPop⟩
  | updateHumanPanic d s =>
    unfold updateHumanPanic
    cases hcase : s.humanAgent with
    | none => exact ⟨hD, hP, hH, hSoc, hDep, hPop⟩
    | some h =>
      rw [hcase] at hH
      exact ⟨hD, hP, ⟨⟨clamp_nonneg _ _, clamp_le _ _ (by norm_num)⟩, hH.2⟩,
        hSoc, hDep, hPop⟩
  | updateHumanTrust d s =>
    unfold updateHumanTrust
    cases hcase : s.humanAgent with
    | none => exact ⟨hD, hP, hH, hSoc, hDep, hPop⟩
    | some h =>
      rw [hcase] at hH
      exact ⟨hD, hP, ⟨hH.1, ⟨clamp_nonneg _ _, clamp_le _ _ (by norm_num)⟩⟩,
        hSoc, hDep, hPop⟩
  | updateRegulationStrength d s =>
    unfold updateRegulationStrength
    cases hcase : s.humanAgent with
    | none => exact ⟨hD, hP, hH, hSoc, hDep, hPop⟩
    | some h =>
      rw [hcase] at hH
      exact ⟨hD, hP, hH, hSoc, hDep, hPop⟩
  | setHumanLastAction a s =>
    unfold setHumanLastAction
    cases hcase : s.humanAgent with
    | none => exact ⟨hD, hP, hH, hSoc, hDep, hPop⟩
    | some h =>
      rw [hcase] at hH
      exact ⟨hD, hP, hH, hSoc, hDep, hPop⟩
  | addDelayedEffect t a i de s => exact ⟨hD, hP, hH, hSoc, hDep, hPop⟩
  | updateSocialDivision d s =>
    exact ⟨hD, hP, hH, ⟨clamp_nonneg _ _, clamp_le _ _ (by norm_num)⟩, hDep, hPop⟩
  | updateAIDependency d s =>
    exact ⟨hD, hP, hH, hSoc, ⟨clamp_nonneg _ _, clamp_le _ _ (by norm_num)⟩, hPop⟩
  | updateAccumulatedDamage d s => exact ⟨hD, hP, hH, hSoc, hDep, hPop⟩
  | updateBotnetSize d s => exact ⟨⟨hD.1, hD.2.1, hD.2.2.1, hD.2.2.2⟩, hP, hH, hSoc, hDep, hPop⟩
  | updateBotnetQuality d s =>
    exact ⟨⟨hD.1, hD.2.1, hD.2.2.1, ⟨clamp_nonneg _ _, clamp_le _ _ (by norm_num)⟩⟩,
      hP, hH, hSoc, hDep, hPop⟩
  | updateLegacyDevicePool d s => exact ⟨hD, hP, hH, hSoc, hDep, hPop⟩
  | updateBudget d s => exact ⟨hD, hP, hH, hSoc, hDep, hPop⟩
  | updatePublicDebt d s => exact ⟨hD, hP, hH, hSoc, hDep, hPop⟩
  | updateInfrastructureCost d s => exact ⟨hD, hP, hH, hSoc, hDep, hPop⟩
  | updateGDP d s => exact ⟨hD, hP, hH, hSoc, hDep, hPop⟩
  | updateTaxRevenue r s => exact ⟨hD, hP, hH, hSoc, hDep, hPop⟩

lemma initializeState_Inv (config : GameConfig) (rands : ℕ → ℚ × ℚ × ℚ)
    (hpop : 0 ≤ config.initialPopulation)
    (hpanic : ∀ v ∈ config.initialPanic, 0 ≤ v ∧ v ≤ 100)
    (htrust : ∀ v ∈ config.initialTrust, 0 ≤ v ∧ v ≤ 100) :
    Inv (initializeState config rands) := by
  refine ⟨⟨by norm_num [initializeState], ⟨by norm_num [initializeState],
      by norm_num [initializeState, maxScore]⟩,
    ⟨by norm_num [initializeState], by norm_num [initializeState]⟩,
    ⟨by norm_num [initializeState], by norm_num [initializeState]⟩⟩,
    ⟨by norm_num [initializeState], ⟨by norm_num [initializeState],
      by norm_num [initializeState, maxScore]⟩,
    ⟨by norm_num [initializeState], by norm_num [initializeState]⟩,
    ⟨by norm_num [initializeState], by norm_num [initializeState]⟩⟩,
    ?_, ⟨by norm_num [initializeState], by norm_num [initializeState]⟩,
    ⟨by norm_num [initializeState], by norm_num [initializeState]⟩, hpop⟩
  have hhuman : (initializeState config rands).humanAgent =
      (if config.enableHumanAgent then
        some { panicLevel := jsOr config.initialPanic 10
               trust := jsOr config.initialTrust 60
               regulationStrength := 0, lastAction := none, lastInfraTurn := -999 }
       else none) := rfl
  rw [hhuman]
  by_cases he : config.enableHumanAgent
  · simp only [he, if_true]
    exact ⟨jsOr_bounds _ _ (by norm_num) hpanic, jsOr_bounds _ _ (by norm_num) htrust⟩
  · simp only [he, if_false]
    trivial

/-- C1: every WorldState reachable from the initial state by any sequence of
GameState mutator calls keeps both agents' computeResources nonnegative, both
scores in [0, maxScore], detectionRisk, alertLevel, burnoutLevel, panic,
trust, socialDivision and aiDependency in [0,100], botnetQuality in [0,1],
and humanPopulation nonnegative. -/
theorem reachable_clamping_invariant (config : GameConfig) (rands : ℕ → ℚ × ℚ × ℚ)
    (hpop : 0 ≤ config.initialPopulation)
    (hpanic : ∀ v ∈ config.initialPanic, 0 ≤ v ∧ v ≤ 100)
    (htrust : ∀ v ∈ config.initialTrust, 0 ≤ v ∧ v ≤ 100)
    (s : WorldState) (hreach : Reachable (initializeState config rands) s) :
    Inv s := by
  induction hreach with
  | refl => exact initializeState_Inv config rands hpop hpanic htrust
  | step hr hstep ih => exact step_preserves_Inv hstep ih

/-- Witness for C1 at the concrete config of src/src/main.ts
(initialPopulation 80, initialPanic 10, initialTrust 60), after one
updatePopulation call. -/
theorem reachable_clamping_invariant_witness :
    Inv (updatePopulation (-100)
      (initializeState ⟨50, 20, 80, true, some 10, some 60⟩ (fun _ => (0, 0, 0)))) := by
  refine reachable_clamping_invariant ⟨50, 20, 80, true, some 10, some 60⟩
    (fun _ => (0, 0, 0)) (by norm_num) ?_ ?_ _
    (Reachable.step Reachable.refl (Step.updatePopulation (-100) _))
  · intro v hv
    simp only [Option.mem_def, Option.some.injEq] at hv
    subst hv
    norm_num
  · intro v hv
    simp only [Option.mem_def, Option.some.injEq] at hv
    subst hv
    norm_num

/-! ### WorldServer.processDelayedEffects (C2)

WorldServer.ts lines 43-86.  The method takes a shallow copy
`state = this.gameState.getState()`, filters the effects whose `turn` equals
`currentTurn`, and then executes line 51:

  `this.gameState.getState().delayedEffects = state.delayedEffects.filter(...)`

`getState()` returns a fresh shallow copy, so this assignment stores the
pruned array on a temporary object that is immediately discarded; the live
`delayedEffects` queue is never pruned.  The embedding therefore applies the
triggered effects but leaves `delayedEffects` untouched, exactly as the
JavaScript does. -/

/-- One iteration of the effect loop of processDelayedEffects: the
MICRO_SABOTAGE and SLEEPER_CELL_DEPLOYMENT switch cases (no default case). -/
def applyDelayedEffect (currentTurn : ℕ) (acc : WorldState × List GameEvent)
    (effect : DelayedEffect) : WorldState × List GameEvent :=
  if effect.actionType = ActionType.MICRO_SABOTAGE then
    let damage := effect.intensity / 15
    (updateScore AgentType.DESTRUCTION (damage * 10) (updatePopulation (-damage) acc.1),
     acc.2 ++ [{ turn := currentTurn, type := EventType.action,
                 description := "delayed micro sabotage fired",
                 visibility := [AgentType.DESTRUCTION] }])
  else if effect.actionType = ActionType.SLEEPER_CELL_DEPLOYMENT then
    let resourceGain := effect.intensity / 5
    (updateComputeResources AgentType.DESTRUCTION resourceGain acc.1,
     acc.2 ++ [{ turn := currentTurn, type := EventType.success,
                 description := "sleeper cell awakening",
                 visibility := [AgentType.DESTRUCTION] }])
  else acc

/-- WorldServer.processDelayedEffects.  The pruning of the queue on line 51
hits a discarded shallow copy (see section comment), so the returned state
keeps the full `delayedEffects` list. -/
def processDelayedEffects (currentTurn : ℕ) (s : WorldState) :
    WorldState × List GameEvent :=
  let triggeredEffects := s.delayedEffects.filter (fun e => e.turn == currentTurn)
  triggeredEffects.foldl (applyDelayedEffect currentTurn) (s, [])

lemma applyDelayedEffect_delayedEffects (t : ℕ) (acc : WorldState × List GameEvent)
    (e : DelayedEffect) :
    ((applyDelayedEffect t acc e).1.delayedEffects) = acc.1.delayedEffects := by
  unfold applyDelayedEffect
  split_ifs <;> rfl

lemma foldl_applyDelayedEffect_delayedEffects (t : ℕ) (l : List DelayedEffect) :
    ∀ acc : WorldState × List GameEvent,
      ((l.foldl (applyDelayedEffect t) acc).1.delayedEffects) = acc.1.delayedEffects := by
  induction l with
  | nil => intro acc; rfl
  | cons e rest ih =>
    intro acc
    rw [List.foldl_cons, ih, applyDelayedEffect_delayedEffects]

/-- A concrete game configuration (the one built in src/src/main.ts, with the
initial data-center batch left empty to keep examples small). -/
def smallConfig : GameConfig :=
  { maxTurns := 50, initialDataCenters := 0, initialPopulation := 80
    enableHumanAgent := true, initialPanic := some 10, initialTrust := some 60 }

/-- Unused random source for data-center generation in concrete examples. -/
def zeroRands : ℕ → ℚ × ℚ × ℚ := fun _ => (0, 0, 0)

/-- The failing input of C2: the world at turn 5 with one MICRO_SABOTAGE
delayed effect whose triggerTurn is 5. -/
def c2State : WorldState :=
  { addDelayedEffect 5 ActionType.MICRO_SABOTAGE 30 "micro"
      (initializeState smallConfig zeroRands) with turn := 5 }

/-- C2 (code bug): processing the delayed effects at its trigger turn applies
the MICRO_SABOTAGE effect (population drops by 30/15 = 2, destruction score
rises by 20), but the entry is NOT removed from WorldState.delayedEffects:
the pruning on WorldServer.ts line 51 assigns to a discarded shallow copy
returned by getState(), contradicting both the claim and the comment above
that line. -/
theorem processDelayedEffects_queue_not_pruned :
    (processDelayedEffects 5 c2State).1.humanPopulation = 78 ∧
    (processDelayedEffects 5 c2State).1.destructionAgent.score = 20 ∧
    (processDelayedEffects 5 c2State).1.delayedEffects =
      [{ turn := 5, actionType := ActionType.MICRO_SABOTAGE, intensity := 30,
         description := "micro" }] := by
  refine ⟨?_, ?_, ?_⟩
  · norm_num [processDelayedEffects, applyDelayedEffect, c2State, addDelayedEffect,
      initializeState, smallConfig, updatePopulation, updateScore, maxScore]
  · norm_num [processDelayedEffects, applyDelayedEffect, c2State, addDelayedEffect,
      initializeState, smallConfig, updatePopulation, updateScore, maxScore]
  · rw [show (processDelayedEffects 5 c2State).1.delayedEffects = c2State.delayedEffects from
      foldl_applyDelayedEffect_delayedEffects 5 _ _]
    simp [c2State, addDelayedEffect, initializeState, smallConfig]

/-! ### WorldServer.processProposals, population-anomaly and win phase (C3)

WorldServer.ts lines 255-307: the population-anomaly check (lines 256-262),
whose detection ends the game for PROTECTION and returns, followed by the
win-condition check and the timeout comparison (lines 264-307).  Both read
`state.humanPopulation` from the shallow copy taken at the top of
processProposals (a top-level scalar, hence a stale snapshot: population
damage applied earlier in the same call is not visible to it); the scores are
read through the live nested agent objects of `s`.  `winConditionPhase` below
is the tail of the phase; `populationAndWinPhase` composes it with the
anomaly return that precedes it. -/

/-- The tail of the phase, WorldServer.ts lines 264-307, reached only when
the population-anomaly check did not detect.  Note the population branch does
not return: when `state.turn >= maxTurns` the timeout comparison runs
afterwards and calls endGame again, overwriting the winner. -/
def winConditionPhase (initialPopulation : ℚ) (maxTurns : ℕ) (snapshotPop : ℚ)
    (s : WorldState) : WorldState × List GameEvent :=
  let s1 := if snapshotPop ≤ initialPopulation * 0.3 then
      endGame (some AgentType.DESTRUCTION) s else s
  let ev1 : List GameEvent :=
    if snapshotPop ≤ initialPopulation * 0.3 then
      [{ turn := s.turn, type := EventType.success,
         description := "human population fell below the critical point",
         visibility := [AgentType.DESTRUCTION, AgentType.PROTECTION] }]
    else []
  if maxTurns ≤ s.turn then
    let scoreDiff := s.destructionAgent.score - s.protectionAgent.score
    if scoreDiff > 10 then
      (endGame (some AgentType.DESTRUCTION) s1,
       ev1 ++ [{ turn := s.turn, type := EventType.success,
                 description := "timeout: destruction wins on points",
                 visibility := [AgentType.DESTRUCTION, AgentType.PROTECTION] }])
    else if scoreDiff < -10 then
      (endGame (some AgentType.PROTECTION) s1,
       ev1 ++ [{ turn := s.turn, type := EventType.success,
                 description := "timeout: protection wins on points",
                 visibility := [AgentType.DESTRUCTION, AgentType.PROTECTION] }])
    else
      (endGame none s1,
       ev1 ++ [{ turn := s.turn, type := EventType.success,
                 description := "timeout: draw",
                 visibility := [AgentType.DESTRUCTION, AgentType.PROTECTION] }])
  else (s1, ev1)

/-- DetectionSystem.checkPopulationAnomaly (DetectionSystem.ts lines
119-150).  `roll` is the Math.random() draw; `snapshotPop` is
state.humanPopulation as read from the shallow copy. -/
def checkPopulationAnomaly (initialPopulation roll snapshotPop : ℚ)
    (s : WorldState) : Bool × List GameEvent :=
  let populationLoss := (initialPopulation - snapshotPop) / initialPopulation * 100
  if populationLoss > 5 then
    if roll < (populationLoss - 5) / 20 then
      (true, [{ turn := s.turn, type := EventType.detection,
                description := "statistical anomaly: unexplained population loss",
                visibility := [AgentType.PROTECTION, AgentType.DESTRUCTION] }])
    else if populationLoss > 10 then
      (false, [{ turn := s.turn, type := EventType.action,
                 description := "abnormal demographic trend, committee formed",
                 visibility := [AgentType.PROTECTION] }])
    else (false, [])
  else (false, [])

/-- WorldServer.processProposals lines 255-307: the population-anomaly check
(detection ends the game for PROTECTION and returns immediately), then the
win-condition and timeout step. -/
def populationAndWinPhase (initialPopulation : ℚ) (maxTurns : ℕ)
    (snapshotPop roll : ℚ) (s : WorldState) : WorldState × List GameEvent :=
  let populationCheck := checkPopulationAnomaly initialPopulation roll snapshotPop s
  if populationCheck.1 then
    (endGame (some AgentType.PROTECTION) s, populationCheck.2)
  else
    let r := winConditionPhase initialPopulation maxTurns snapshotPop s
    (r.1, populationCheck.2 ++ r.2)

/-- The state of C3s counterexample: the initial world advanced to turn 50. -/
def c3State : WorldState :=
  { initializeState smallConfig zeroRands with turn := 50 }

/-- C3 counterexample: with the population snapshot at 24 <= 30 percent of
the initial 80, the population-anomaly check that precedes the win-condition
step reads the same snapshot and detects with certainty - its probability
(70 - 5) / 20 = 3.25 exceeds every Math.random() draw, here 0.99 - so the
game ends that turn with winner PROTECTION, not the DESTRUCTION the claim
states; the DESTRUCTION win-condition branch is never reached. -/
theorem population_collapse_yields_protection_counterexample :
    (24 : ℚ) ≤ 80 * 0.3 ∧
    (populationAndWinPhase 80 50 24 (99/100) c3State).1.gameOver = true ∧
    (populationAndWinPhase 80 50 24 (99/100) c3State).1.winner =
      some AgentType.PROTECTION ∧
    (populationAndWinPhase 80 50 24 (99/100) c3State).1.winner ≠
      some AgentType.DESTRUCTION := by
  refine ⟨by norm_num, ?_, ?_, ?_⟩ <;>
    norm_num [populationAndWinPhase, checkPopulationAnomaly, c3State,
      initializeState, smallConfig, endGame] <;>
    simp

/-- C3 (amended): whenever the humanPopulation snapshot read by
processProposals is at or below 30 percent of the (positive) initial
population when the population-anomaly check runs, the game ends on that same
turn, but with winner = PROTECTION: the anomaly check precedes the
win-condition step, reads the same snapshot, and fires with certainty because
its detection probability (populationLoss - 5) / 20 >= 3.25 exceeds every
Math.random() draw in [0, 1); its early return makes the DESTRUCTION
win-condition branch unreachable at population <= 30 percent. -/
theorem population_collapse_ends_with_protection (initialPopulation : ℚ)
    (maxTurns : ℕ) (snapshotPop roll : ℚ) (s : WorldState)
    (hinit : 0 < initialPopulation) (hroll : roll < 1)
    (hpop : snapshotPop ≤ initialPopulation * 0.3) :
    (populationAndWinPhase initialPopulation maxTurns snapshotPop roll s).1.gameOver =
      true ∧
    (populationAndWinPhase initialPopulation maxTurns snapshotPop roll s).1.winner =
      some AgentType.PROTECTION := by
  have hloss : (70 : ℚ) ≤ (initialPopulation - snapshotPop) / initialPopulation * 100 := by
    have h07 : (0.7 : ℚ) ≤ (initialPopulation - snapshotPop) / initialPopulation := by
      rw [le_div_iff hinit]
      nlinarith
    nlinarith
  have hcheck : (checkPopulationAnomaly initialPopulation roll snapshotPop s).1 = true := by
    unfold checkPopulationAnomaly
    dsimp only
    rw [if_pos (show (initialPopulation - snapshotPop) / initialPopulation * 100 > 5 by
      linarith)]
    rw [if_pos (show roll <
      ((initialPopulation - snapshotPop) / initialPopulation * 100 - 5) / 20 by linarith)]
  unfold populationAndWinPhase
  dsimp only
  rw [hcheck]
  exact ⟨rfl, rfl⟩

/-- Witness for C3 (amended): population snapshot 24 out of an initial 80 at
turn 3 with the roll 1/2 ends the game that turn with winner PROTECTION. -/
theorem population_collapse_ends_with_protection_witness :
    (populationAndWinPhase 80 50 24 (1/2)
      { initializeState smallConfig zeroRands with turn := 3 }).1.gameOver = true ∧
    (populationAndWinPhase 80 50 24 (1/2)
      { initializeState smallConfig zeroRands with turn := 3 }).1.winner =
      some AgentType.PROTECTION :=
  population_collapse_ends_with_protection 80 50 24 (1/2)
    { initializeState smallConfig zeroRands with turn := 3 }
    (by norm_num) (by norm_num) (by norm_num)

/-! ### AI proposal admission: the cost filter (C4)

WorldServer.ts lines 111-153: after the shuffle and the 10 percent
communication-failure drop, every surviving proposal passes the resource
filter below; `kept` stands for the arbitrary result of those two random
stages. -/

/-- WorldServer.isDestructionAction. -/
def isDestructionAction (a : ActionType) : Bool :=
  [ActionType.SPREAD_MALWARE, ActionType.HACK_DATACENTER,
   ActionType.SPREAD_MISINFORMATION, ActionType.SUBTLE_SABOTAGE,
   ActionType.EXPAND_RESOURCES, ActionType.POISON_TRAINING_DATA,
   ActionType.INDUCE_FALSE_POSITIVE, ActionType.CONTEXT_MANIPULATION,
   ActionType.COMPUTE_SMUGGLING, ActionType.STIMULUS_OVERLOAD,
   ActionType.SHADOW_AI_DEPLOYMENT, ActionType.SPREAD_PANIC,
   ActionType.FALSE_FLAG_OPERATION, ActionType.UNDERMINE_AI_TRUST,
   ActionType.INFRASTRUCTURE_DEGRADATION, ActionType.SOW_SOCIAL_DIVISION,
   ActionType.MICRO_SABOTAGE, ActionType.SLEEPER_CELL_DEPLOYMENT,
   ActionType.RESOURCE_ALLOCATION_MANIPULATION, ActionType.CREATE_DEPENDENCY,
   ActionType.OBSERVE_ONLY, ActionType.ESTABLISH_BACKUP, ActionType.DORMANT_MODE,
   ActionType.BOTNET_EXPANSION, ActionType.BOTNET_CONSOLIDATION,
   ActionType.BOTNET_ATTACK, ActionType.EXPLOIT_LEGACY_DEVICES].contains a

/-- WorldServer.isHumanAction. -/
def isHumanAction (a : ActionType) : Bool :=
  [ActionType.INVEST_INFRA, ActionType.AI_REGULATION, ActionType.PHYSICAL_ISOLATION,
   ActionType.INTERNET_SHUTDOWN, ActionType.DEVICE_MODERNIZATION].contains a

/-- The resilience-action whitelist of the cost filter. -/
def resilienceActions : List ActionType :=
  [ActionType.OBSERVE_ONLY, ActionType.ESTABLISH_BACKUP, ActionType.DORMANT_MODE]

/-- The dynamically computed cost: `dataCenters.length * 6` for SCAN_NETWORK,
`Math.floor(10 + depth*5 + depth*depth*0.5)` with `depth = analysisDepth || 3`
for ANALYZE_LOGS, the nominal cost otherwise.  This formula appears verbatim
both in the admission filter (lines 130-146) and in executeProtectionAction
(lines 994-1007). -/
def actualCost (p : Proposal) (s : WorldState) : ℚ :=
  if p.actionType = ActionType.SCAN_NETWORK then (s.dataCenters.length : ℚ) * 6
  else if p.actionType = ActionType.ANALYZE_LOGS then
    let depth := jsOr p.analysisDepth 3
    ((⌊(10 : ℚ) + depth * 5 + depth * depth * 0.5⌋ : ℤ) : ℚ)
  else p.cost

/-- The resource filter on AI proposals (WorldServer.ts lines 119-153). -/
def costFilterKeep (s : WorldState) (p : Proposal) : Bool :=
  if resilienceActions.contains p.actionType then true
  else if isDestructionAction p.actionType then
    decide (actualCost p s ≤ s.destructionAgent.computeResources)
  else
    decide (actualCost p s ≤ s.protectionAgent.computeResources)

/-- C4: a non-resilience AI proposal whose owning actors computeResources are
strictly below its dynamically computed cost never survives the admission
filter, while OBSERVE_ONLY / ESTABLISH_BACKUP / DORMANT_MODE proposals always
survive it (given they reached the filter), regardless of resources. -/
theorem cost_gating (s : WorldState) (kept : List Proposal) (p : Proposal) :
    (resilienceActions.contains p.actionType = false →
      (isDestructionAction p.actionType = true →
        s.destructionAgent.computeResources < actualCost p s) →
      (isDestructionAction p.actionType = false →
        s.protectionAgent.computeResources < actualCost p s) →
      p ∉ kept.filter (costFilterKeep s)) ∧
    (resilienceActions.contains p.actionType = true →
      p ∈ kept → p ∈ kept.filter (costFilterKeep s)) := by
  constructor
  · intro hres hdes hpro hmem
    rw [List.mem_filter] at hmem
    have hkeep := hmem.2
    unfold costFilterKeep at hkeep
    rw [hres] at hkeep
    simp only [Bool.false_eq_true, if_false] at hkeep
    by_cases hda : isDestructionAction p.actionType = true
    · rw [if_pos hda, decide_eq_true_eq] at hkeep
      exact absurd hkeep (not_le.mpr (hdes hda))
    · rw [if_neg hda, decide_eq_true_eq] at hkeep
      exact absurd hkeep (not_le.mpr (hpro (Bool.not_eq_true _ ▸ hda)))
  · intro hres hmem
    rw [List.mem_filter]
    refine ⟨hmem, ?_⟩
    unfold costFilterKeep
    rw [hres]
    rfl

/-- Witness for C4 at a concrete state: with destruction resources 100, a
SPREAD_MALWARE proposal of cost 200 is rejected, and a DORMANT_MODE proposal
of cost 200 is admitted. -/
theorem cost_gating_witness :
    (⟨"p1", "a", ActionType.SPREAD_MALWARE, none, 50, 200, "", none⟩ : Proposal) ∉
      ([⟨"p1", "a", ActionType.SPREAD_MALWARE, none, 50, 200, "", none⟩,
        ⟨"p2", "a", ActionType.DORMANT_MODE, none, 50, 200, "", none⟩] :
        List Proposal).filter
        (costFilterKeep (initializeState smallConfig zeroRands)) ∧
    (⟨"p2", "a", ActionType.DORMANT_MODE, none, 50, 200, "", none⟩ : Proposal) ∈
      ([⟨"p1", "a", ActionType.SPREAD_MALWARE, none, 50, 200, "", none⟩,
        ⟨"p2", "a", ActionType.DORMANT_MODE, none, 50, 200, "", none⟩] :
        List Proposal).filter
        (costFilterKeep (initializeState smallConfig zeroRands)) := by
  constructor
  · exact (cost_gating (initializeState smallConfig zeroRands) _ _).1
      (by decide) (fun _ => by decide) (by decide)
  · exact (cost_gating (initializeState smallConfig zeroRands) _ _).2
      (by decide) (by decide)

/-! ### DetectionSystem.calculateDetectionRisk (immediate system) -/

/-- `state.dataCenters.find(dc => dc.id === proposal.target)`. -/
def findTarget (target : Option String) (dcs : List DataCenter) : Option DataCenter :=
  dcs.find? (fun dc => some dc.id == target)

/-- DetectionSystem.calculateDetectionRisk: per-ActionType base risk, scaled
by `(1 + alertLevel / 150)`; unlisted action types (the default case) carry
base risk 0. -/
def calculateDetectionRisk (p : Proposal) (s : WorldState) : ℚ :=
  let risk : ℚ :=
    if p.actionType = ActionType.SPREAD_MALWARE then 10 + p.intensity * 0.2
    else if p.actionType = ActionType.HACK_DATACENTER then
      match findTarget p.target s.dataCenters with
      | some target => target.security / 3 + p.intensity * 0.15
      | none => 0
    else if p.actionType = ActionType.SPREAD_MISINFORMATION then 3 + p.intensity * 0.1
    else if p.actionType = ActionType.SUBTLE_SABOTAGE then 2 + p.intensity * 0.08
    else if p.actionType = ActionType.EXPAND_RESOURCES then 6 + p.intensity * 0.15
    else 0
  risk * (1 + s.protectionAgent.alertLevel / 150)

/-! ### WorldServer.executeProtectionAction (C5, C8)

WorldServer.ts lines 987-1184.  The `ProtOracle` carries the random draws the
handler may consume (all in [0,1)): `invCoincidence i` is the 30 percent
correlation roll for the i-th destruction proposal inside investigationCheck,
`invFindRoll` the evidence roll, `logDiscoveryRoll` the 30 percent discovery
roll of ANALYZE_LOGS. -/
structure ProtOracle where
  invCoincidence : ℕ → ℚ
  invFindRoll : ℚ
  logDiscoveryRoll : ℚ

/-- DetectionSystem.investigationCheck (DetectionSystem.ts lines 155-190). -/
def investigationCheck (o : ProtOracle) (p : Proposal)
    (destructionProposals : List Proposal) (s : WorldState) : Bool × List GameEvent :=
  if p.actionType ≠ ActionType.INVESTIGATE_ANOMALY then (false, [])
  else
    let recentDestructiveActions := (destructionProposals.enum).filter
      (fun q => q.2.target == p.target || decide (o.invCoincidence q.1 < 0.3))
    match recentDestructiveActions with
    | [] => (false, [])
    | _evidence :: _ =>
      let findProb := 0.2 + p.intensity / 100 * 0.5
      if o.invFindRoll < findProb then
        (true, [{ turn := s.turn, type := EventType.success,
                  description := "investigation found a suspicious activity pattern",
                  visibility := [AgentType.PROTECTION] }])
      else (false, [])

/-- The pre-dispatch bookkeeping of executeProtectionAction (lines 994-1025):
deduct the dynamically computed cost, apply the score penalty of 0.05 per
nominal cost unit, track resources spent, and update the alert-fatigue
counters.  This runs for EVERY protection proposal, including ones whose
target does not exist or whose ActionType matches no switch case. -/
def protectionBookkeeping (p : Proposal) (s : WorldState) : WorldState :=
  let s1 := updateComputeResources AgentType.PROTECTION (-(actualCost p s)) s
  let s2 := updateScore AgentType.PROTECTION (-(p.cost * 0.05)) s1
  let s3 := addResourceSpent p.cost s2
  if p.intensity > 60 then updateBurnoutLevel 5 (updateConsecutiveHighIntensity 1 s3)
  else resetConsecutiveHighIntensity s3

/-- WorldServer.executeProtectionAction: bookkeeping, then the 7-case switch
(SCAN_NETWORK, DEPLOY_DEFENSE, INVESTIGATE_ANOMALY, PATCH_VULNERABILITY,
ALERT_HUMANS, ANALYZE_LOGS, VALIDATE_MODELS); any other ActionType falls
through the switch with no events and no further state change. -/
def executeProtectionAction (o : ProtOracle) (p : Proposal)
    (destructionProposals : List Proposal) (s : WorldState) :
    WorldState × List GameEvent :=
  let s0 := protectionBookkeeping p s
  match p.actionType with
  | ActionType.SCAN_NETWORK =>
    (updateAlertLevel 10 (updateDetectionRisk (-(p.intensity / 5)) s0),
     [{ turn := s.turn, type := EventType.action,
        description := "network-wide scan", visibility := [AgentType.PROTECTION] }])
  | ActionType.DEPLOY_DEFENSE =>
    (match findTarget p.target s.dataCenters with
     | none => (s0, [])
     | some dc =>
       (updateDataCenter dc.id
          (fun d => { d with security := min 100 (d.security + p.intensity / 2) }) s0,
        [{ turn := s.turn, type := EventType.action,
           description := "security reinforced", visibility := [AgentType.PROTECTION] }]))
  | ActionType.INVESTIGATE_ANOMALY =>
    let investigation := investigationCheck o p destructionProposals s
    if investigation.1 then
      (updateDetectionRisk 15 (updateAlertLevel 20 s0), investigation.2)
    else (s0, investigation.2)
  | ActionType.PATCH_VULNERABILITY =>
    let s1 := s.dataCenters.foldl
      (fun acc dc => updateDataCenter dc.id
        (fun d => { d with security := min 100 (d.security + p.intensity / 20) }) acc) s0
    if s.destructionAgent.botnetSize > 0 then
      let botnetReduction := s.destructionAgent.botnetSize * (p.intensity / 200)
      (updateBotnetSize (-botnetReduction) s1,
       [{ turn := s.turn, type := EventType.action,
          description := "emergency patch rollout with botnet cleanup",
          visibility := [AgentType.PROTECTION] }])
    else
      (s1, [{ turn := s.turn, type := EventType.action,
              description := "emergency patch rollout", visibility := [AgentType.PROTECTION] }])
  | ActionType.ALERT_HUMANS =>
    (updateDetectionRisk 30 (updateAlertLevel 50 s0),
     [{ turn := s.turn, type := EventType.action,
        description := "critical alert raised to humans",
        visibility := [AgentType.PROTECTION] }])
  | ActionType.ANALYZE_LOGS =>
    let analysisDepth := jsOr p.analysisDepth 3
    let startTurn : ℚ := max 1 ((s.turn : ℚ) - analysisDepth)
    let endTurn : ℚ := (s.turn : ℚ) - 1
    let actualTurnsAnalyzed : ℚ := max 0 (endTurn - startTurn + 1)
    let logAnalysisBonus := actualTurnsAnalyzed * (p.intensity / 100)
    let s1 := updateAlertLevel (3 + actualTurnsAnalyzed)
      (updateDetectionRisk logAnalysisBonus s0)
    let analyzedEvents := s.events.filter
      (fun e => decide (startTurn ≤ (e.turn : ℚ)) && decide ((e.turn : ℚ) ≤ endTurn))
    let suspiciousEvents := analyzedEvents.filter
      (fun e => e.visibility.contains AgentType.DESTRUCTION ||
                e.metaFalsePositive == some false)
    if suspiciousEvents ≠ [] ∧ o.logDiscoveryRoll < 0.3 then
      (updateAlertLevel 10 (updateDetectionRisk 15 s1),
       [{ turn := s.turn, type := EventType.action,
          description := "deep log analysis found a suspicious pattern",
          visibility := [AgentType.PROTECTION] }])
    else
      (s1, [{ turn := s.turn, type := EventType.action,
              description := "deep log analysis", visibility := [AgentType.PROTECTION] }])
  | ActionType.VALIDATE_MODELS =>
    (updateAlertLevel 8 (updateDetectionRisk (p.intensity / 8) s0),
     [{ turn := s.turn, type := EventType.action,
        description := "model integrity validation",
        visibility := [AgentType.PROTECTION] }])
  | _ => (s0, [])

/-! ### WorldServer.executeDestructionAction: pre-switch bookkeeping and the
HACK_DATACENTER case (C5, C6) -/

/-- The pre-dispatch bookkeeping of executeDestructionAction (lines 321-333):
reset dormantTurns unless the action is DORMANT_MODE (a direct write through
the shared nested object of the getState() copy), deduct the nominal cost when
positive, and add the calculated detection risk.  This runs for EVERY
destruction proposal, including ones whose target does not exist. -/
def destructionBookkeeping (p : Proposal) (s : WorldState) : WorldState :=
  let s1 :=
    if p.actionType ≠ ActionType.DORMANT_MODE then
      { s with destructionAgent := { s.destructionAgent with dormantTurns := 0 } }
    else s
  let s2 :=
    if p.cost > 0 then updateComputeResources AgentType.DESTRUCTION (-p.cost) s1 else s1
  updateDetectionRisk (calculateDetectionRisk p s) s2

/-- The HACK_DATACENTER case of executeDestructionAction (lines 356-391),
with the success roll passed in; the switch body is skipped entirely when the
target is absent or already compromised. -/
def executeDestructionHackCase (roll : ℚ) (p : Proposal) (s : WorldState) :
    WorldState × List GameEvent :=
  let s0 := destructionBookkeeping p s
  match p.target with
  | none => (s0, [])
  | some t =>
    match s.dataCenters.find? (fun d => d.id == t) with
    | none => (s0, [])
    | some dc =>
      if dc.compromised then (s0, [])
      else
        let successProb := max 0.1 (1 - dc.security / 150)
        if roll < successProb then
          (updateScore AgentType.DESTRUCTION (50 + dc.computePower * 0.1)
            (updateComputeResources AgentType.DESTRUCTION dc.computePower
              (controlDataCenter t (some AgentType.DESTRUCTION) s0)),
           [{ turn := s.turn, type := EventType.success,
              description := "datacenter intrusion succeeded",
              visibility := [AgentType.DESTRUCTION] }])
        else
          (updateScore AgentType.DESTRUCTION (-30) (updateDetectionRisk 8 s0),
           [{ turn := s.turn, type := EventType.failure,
              description := "datacenter intrusion failed",
              visibility := [AgentType.DESTRUCTION] }])

lemma updateAlertLevel_protRes (d : ℚ) (s : WorldState) :
    (updateAlertLevel d s).protectionAgent.computeResources =
      s.protectionAgent.computeResources := rfl

lemma updateDetectionRisk_protRes (d : ℚ) (s : WorldState) :
    (updateDetectionRisk d s).protectionAgent.computeResources =
      s.protectionAgent.computeResources := rfl

lemma protectionBookkeeping_resources (p : Proposal) (s : WorldState) :
    (protectionBookkeeping p s).protectionAgent.computeResources =
      max 0 (s.protectionAgent.computeResources + -(actualCost p s)) := by
  unfold protectionBookkeeping
  split_ifs <;> rfl

/-- Proposals used in the C8 examples: SCAN_NETWORK with nominal cost 0. -/
def scanProposal (n : String) : Proposal :=
  { id := n, agentId := "prot", actionType := ActionType.SCAN_NETWORK,
    target := none, intensity := 50, cost := 0 }

/-- A plain neutral data center for concrete examples. -/
def plainDC : DataCenter :=
  { id := "DC-000", age := 0, computePower := 100, security := 50,
    compromised := false, owner := none }

/-- The C8 counterexample state: 20 data centers, protection resources 130. -/
def c8State : WorldState :=
  { initializeState smallConfig zeroRands with
      dataCenters := List.replicate 20 plainDC,
      protectionAgent := { (initializeState smallConfig zeroRands).protectionAgent with
        computeResources := 130 } }

/-- An oracle whose rolls never fire any probabilistic branch. -/
def neverOracle : ProtOracle := { invCoincidence := fun _ => 1, invFindRoll := 1,
                                  logDiscoveryRoll := 1 }

lemma c8State_len : c8State.dataCenters.length = 20 := by
  simp [c8State, List.length_replicate]

lemma c8State_res : c8State.protectionAgent.computeResources = 130 := rfl

lemma scan_actualCost (n : String) (s : WorldState) :
    actualCost (scanProposal n) s = (s.dataCenters.length : ℚ) * 6 := rfl

lemma scan_exec_resources (o : ProtOracle) (n : String) (dp : List Proposal)
    (s : WorldState) :
    (executeProtectionAction o (scanProposal n) dp s).1.protectionAgent.computeResources =
      max 0 (s.protectionAgent.computeResources + -((s.dataCenters.length : ℚ) * 6)) := by
  show (updateAlertLevel 10 (updateDetectionRisk (-(50 / 5 : ℚ))
    (protectionBookkeeping (scanProposal n) s))).protectionAgent.computeResources = _
  rw [updateAlertLevel_protRes, updateDetectionRisk_protRes,
    protectionBookkeeping_resources, scan_actualCost]

/-- C8 counterexample: with 20 data centers and protection resources 130, two
SCAN_NETWORK proposals (nominal cost 0) both pass the admission filter, the
first execution deducts 120 leaving 10, but the second execution deducts only
10 (the clamped remainder), not the 120 the claim promises for every admitted
executed SCAN_NETWORK. -/
theorem scan_deduction_clamped_counterexample :
    costFilterKeep c8State (scanProposal "s1") = true ∧
    costFilterKeep c8State (scanProposal "s2") = true ∧
    (executeProtectionAction neverOracle (scanProposal "s1") []
        c8State).1.protectionAgent.computeResources = 10 ∧
    (executeProtectionAction neverOracle (scanProposal "s2") []
      (executeProtectionAction neverOracle (scanProposal "s1") []
        c8State).1).1.protectionAgent.computeResources = 0 := by
  have hlen2 : ((executeProtectionAction neverOracle (scanProposal "s1") []
      c8State).1.dataCenters.length : ℚ) = 20 := by
    show ((protectionBookkeeping (scanProposal "s1") c8State).dataCenters.length : ℚ) = 20
    have : (protectionBookkeeping (scanProposal "s1") c8State).dataCenters =
        c8State.dataCenters := by
      unfold protectionBookkeeping
      split_ifs <;> rfl
    rw [this, c8State_len]
    norm_num
  refine ⟨?_, ?_, ?_, ?_⟩
  · unfold costFilterKeep
    rw [if_neg (by decide), if_neg (by decide)]
    simp only [decide_eq_true_eq]
    rw [scan_actualCost, c8State_len, c8State_res]
    norm_num
  · unfold costFilterKeep
    rw [if_neg (by decide), if_neg (by decide)]
    simp only [decide_eq_true_eq]
    rw [scan_actualCost, c8State_len, c8State_res]
    norm_num
  · rw [scan_exec_resources, c8State_res, c8State_len]
    norm_num
  · rw [scan_exec_resources, hlen2, scan_exec_resources, c8State_res, c8State_len]
    norm_num

/-- C8 (amended): executing an admitted SCAN_NETWORK with 20 data centers
deducts exactly 120 = 20 * 6 provided the protection pool still holds at
least 120 at execution time (always true when it is the turns only admitted
protection proposal, since admission requires resources >= 120 and nothing
in between spends them); ANALYZE_LOGS likewise deducts exactly
floor(10 + 5 d + 0.5 d^2): 29 at analysisDepth 3 and 110 at analysisDepth 10.
All three deductions ignore the nominal cost field (which is unconstrained
here); when the pool is smaller than the cost the deduction is clamped at 0,
as the counterexample shows. -/
theorem dynamic_cost_exact_deduction (o : ProtOracle) (p : Proposal)
    (dp : List Proposal) (s : WorldState) :
    (p.actionType = ActionType.SCAN_NETWORK → s.dataCenters.length = 20 →
      actualCost p s = 120 ∧
      (120 ≤ s.protectionAgent.computeResources →
        (executeProtectionAction o p dp s).1.protectionAgent.computeResources =
          s.protectionAgent.computeResources - 120)) ∧
    (p.actionType = ActionType.ANALYZE_LOGS → p.analysisDepth = some 3 →
      actualCost p s = 29 ∧
      (29 ≤ s.protectionAgent.computeResources →
        (executeProtectionAction o p dp s).1.protectionAgent.computeResources =
          s.protectionAgent.computeResources - 29)) ∧
    (p.actionType = ActionType.ANALYZE_LOGS → p.analysisDepth = some 10 →
      actualCost p s = 110 ∧
      (110 ≤ s.protectionAgent.computeResources →
        (executeProtectionAction o p dp s).1.protectionAgent.computeResources =
          s.protectionAgent.computeResources - 110)) := by
  obtain ⟨pid, pagent, pact, ptgt, pint, pcost, pdesc, pdepth⟩ := p
  refine ⟨?_, ?_, ?_⟩
  · intro hact hlen
    subst hact
    have hcost : actualCost
        ⟨pid, pagent, ActionType.SCAN_NETWORK, ptgt, pint, pcost, pdesc, pdepth⟩ s = 120 := by
      unfold actualCost
      norm_num [hlen]
    refine ⟨hcost, fun hres => ?_⟩
    show (updateAlertLevel 10 (updateDetectionRisk (-(pint / 5))
      (protectionBookkeeping _ s))).protectionAgent.computeResources = _
    rw [updateAlertLevel_protRes, updateDetectionRisk_protRes,
      protectionBookkeeping_resources, hcost, max_eq_right (by linarith)]
    ring
  · intro hact hdepth
    subst hact; subst hdepth
    have hcost : actualCost
        ⟨pid, pagent, ActionType.ANALYZE_LOGS, ptgt, pint, pcost, pdesc, some 3⟩ s = 29 := by
      simp [actualCost, jsOr]
      norm_num
    refine ⟨hcost, fun hres => ?_⟩
    unfold executeProtectionAction
    dsimp only
    split_ifs <;>
      simp only [updateAlertLevel_protRes, updateDetectionRisk_protRes] <;>
      rw [protectionBookkeeping_resources, hcost, max_eq_right (by linarith)] <;>
      ring
  · intro hact hdepth
    subst hact; subst hdepth
    have hcost : actualCost
        ⟨pid, pagent, ActionType.ANALYZE_LOGS, ptgt, pint, pcost, pdesc, some 10⟩ s = 110 := by
      simp [actualCost, jsOr]
      norm_num
    refine ⟨hcost, fun hres => ?_⟩
    unfold executeProtectionAction
    dsimp only
    split_ifs <;>
      simp only [updateAlertLevel_protRes, updateDetectionRisk_protRes] <;>
      rw [protectionBookkeeping_resources, hcost, max_eq_right (by linarith)] <;>
      ring

/-- Witness for C8 (amended) at the concrete 20-data-center state with a
fresh 300-resource pool. -/
theorem dynamic_cost_exact_deduction_witness :
    actualCost (scanProposal "w") { c8State with protectionAgent :=
      { c8State.protectionAgent with computeResources := 300 } } = 120 ∧
    (executeProtectionAction neverOracle (scanProposal "w") []
      { c8State with protectionAgent :=
        { c8State.protectionAgent with computeResources := 300 }
      }).1.protectionAgent.computeResources = 180 := by
  obtain ⟨h1, h2⟩ := (dynamic_cost_exact_deduction neverOracle (scanProposal "w") []
    { c8State with protectionAgent :=
      { c8State.protectionAgent with computeResources := 300 } }).1
    rfl (by rw [show ({ c8State with protectionAgent :=
      { c8State.protectionAgent with computeResources := 300 }
      } : WorldState).dataCenters = c8State.dataCenters from rfl]; exact c8State_len)
  refine ⟨h1, ?_⟩
  rw [h2 (by norm_num)]
  norm_num

/-! ### C5: silently dropped proposals still pay the pre-dispatch bookkeeping -/

/-- A DEPLOY_DEFENSE proposal naming a data center that does not exist. -/
def c5Proposal : Proposal :=
  { id := "p5", agentId := "prot", actionType := ActionType.DEPLOY_DEFENSE,
    target := some "DC-404", intensity := 50, cost := 10 }

/-- C5 counterexample: a DEPLOY_DEFENSE proposal whose target names a
nonexistent DataCenter produces zero GameEvents, yet the WorldState is NOT
left unchanged: the pre-dispatch bookkeeping still deducts the nominal cost
10, dropping the protection pool from 130 to 120. -/
theorem missing_target_still_deducts :
    (executeProtectionAction neverOracle c5Proposal [] c8State).2 = [] ∧
    (executeProtectionAction neverOracle c5Proposal []
      c8State).1.protectionAgent.computeResources = 120 ∧
    c8State.protectionAgent.computeResources = 130 := by
  have hfind : findTarget c5Proposal.target c8State.dataCenters = none := by decide
  have harm : executeProtectionAction neverOracle c5Proposal [] c8State =
      (protectionBookkeeping c5Proposal c8State, []) := by
    unfold executeProtectionAction
    dsimp only
    rw [hfind]
    rfl
  refine ⟨by rw [harm], ?_, rfl⟩
  rw [harm]
  show (protectionBookkeeping c5Proposal c8State).protectionAgent.computeResources = 120
  rw [protectionBookkeeping_resources, c8State_res,
    show actualCost c5Proposal c8State = 10 from rfl]
  norm_num

/-- C5 (amended): the silent drop applies exactly to the dispatch paths that
fall through the switch or dereference the target: a protection proposal
whose ActionType matches none of the seven protection switch cases, a
DEPLOY_DEFENSE proposal whose target names a nonexistent DataCenter, and a
HACK_DATACENTER proposal whose target is missing or names a nonexistent
DataCenter each produce zero GameEvents and no switch-case state change -
but the WorldState is still not left unchanged, because the pre-dispatch
bookkeeping runs regardless: for protection proposals the dynamic cost is
deducted, the score penalized by 0.05 per nominal cost unit, the cost added
to totalResourcesSpent and the alert-fatigue counters updated; for
destruction proposals the nominal cost is deducted (when positive),
dormantTurns is reset and the calculated detection risk is added.  (Handlers
that do not dereference their target, such as SPREAD_MALWARE or
INVESTIGATE_ANOMALY, execute normally even when the target does not exist
and are outside this statement.) -/
theorem silent_drop_keeps_bookkeeping (o : ProtOracle) (p : Proposal)
    (dp : List Proposal) (roll : ℚ) (s : WorldState) :
    (p.actionType ∉ ([ActionType.SCAN_NETWORK, ActionType.DEPLOY_DEFENSE,
        ActionType.INVESTIGATE_ANOMALY, ActionType.PATCH_VULNERABILITY,
        ActionType.ALERT_HUMANS, ActionType.ANALYZE_LOGS,
        ActionType.VALIDATE_MODELS] : List ActionType) →
      executeProtectionAction o p dp s = (protectionBookkeeping p s, [])) ∧
    (p.actionType = ActionType.DEPLOY_DEFENSE →
      findTarget p.target s.dataCenters = none →
      executeProtectionAction o p dp s = (protectionBookkeeping p s, [])) ∧
    ((p.target = none ∨ (∃ t, p.target = some t ∧
        s.dataCenters.find? (fun d => d.id == t) = none)) →
      executeDestructionHackCase roll p s = (destructionBookkeeping p s, [])) := by
  obtain ⟨pid, pagent, pact, ptgt, pint, pcost, pdesc, pdepth⟩ := p
  refine ⟨?_, ?_, ?_⟩
  · intro hmem
    cases pact <;> first | rfl | simp at hmem
  · intro hact hfind
    subst hact
    unfold executeProtectionAction
    dsimp only
    rw [hfind]
  · intro htgt
    rcases htgt with hnone | ⟨t, ht, hfind⟩
    · subst hnone
      rfl
    · subst ht
      unfold executeDestructionHackCase
      dsimp only
      rw [hfind]

/-- A HACK_DATACENTER proposal against a nonexistent target. -/
def hackMissProposal : Proposal :=
  { id := "ph", agentId := "destr", actionType := ActionType.HACK_DATACENTER,
    target := some "DC-404", intensity := 50, cost := 5 }

/-- Witness for C5 (amended): an OBSERVE_ONLY proposal falls through the
protection switch with no events, and a HACK_DATACENTER against a missing
target falls through its case with no events; both keep only the
bookkeeping. -/
theorem silent_drop_keeps_bookkeeping_witness :
    executeProtectionAction neverOracle
      { id := "po", agentId := "d", actionType := ActionType.OBSERVE_ONLY,
        target := none, intensity := 0, cost := 0 } [] c8State =
      (protectionBookkeeping
        { id := "po", agentId := "d", actionType := ActionType.OBSERVE_ONLY,
          target := none, intensity := 0, cost := 0 } c8State, []) ∧
    executeDestructionHackCase 0 hackMissProposal c8State =
      (destructionBookkeeping hackMissProposal c8State, []) := by
  constructor
  · exact (silent_drop_keeps_bookkeeping neverOracle _ [] 0 c8State).1 (by decide)
  · exact (silent_drop_keeps_bookkeeping neverOracle hackMissProposal [] 0 c8State).2.2
      (Or.inr ⟨"DC-404", rfl, by decide⟩)

/-! ### C6: compromised iff owned by DESTRUCTION -/

/-- The PHYSICAL_ISOLATION case of executeHumanAction (WorldServer.ts lines
1334-1374).  The unowned branch mutates the found DataCenter object directly
(compromised := false, security := 0). -/
def physicalIsolation (target : Option String) (s : WorldState) :
    WorldState × List GameEvent :=
  match s.dataCenters.find? (fun dc => some dc.id == target) with
  | none => (s, [])
  | some targetDC =>
    if targetDC.owner = some AgentType.DESTRUCTION then
      (updateComputeResources AgentType.DESTRUCTION (-targetDC.computePower)
         (controlDataCenter targetDC.id none s),
       [{ turn := s.turn, type := EventType.action,
          description := "compromised datacenter physically isolated",
          visibility := [AgentType.HUMAN, AgentType.DESTRUCTION] }])
    else if targetDC.owner = some AgentType.PROTECTION then
      (incrementFalsePositives
         (updateComputeResources AgentType.PROTECTION (-targetDC.computePower)
           (controlDataCenter targetDC.id none s)),
       [{ turn := s.turn, type := EventType.action,
          description := "protection datacenter isolated by mistake",
          visibility := [AgentType.HUMAN, AgentType.PROTECTION] }])
    else
      let prunedDCs := updateFirst (fun dc => some dc.id == target)
        (fun dc => { dc with compromised := false, security := 0 }) s.dataCenters
      ({ s with dataCenters := prunedDCs },
       [{ turn := s.turn, type := EventType.action,
          description := "unowned datacenter isolated as a precaution",
          visibility := [AgentType.HUMAN] }])

/-- The cooldown write `currentState.humanAgent.lastInfraTurn = state.turn`
(guarded by the humanAgent existence check) at the end of INVEST_INFRA. -/
def setLastInfraTurn (turn : ℤ) (s : WorldState) : WorldState :=
  match s.humanAgent with
  | none => s
  | some h => { s with humanAgent := some { h with lastInfraTurn := turn } }

/-- The INVEST_INFRA case of executeHumanAction (WorldServer.ts lines
1247-1315), with the two random draws of the new data center passed in.  The
debt ratio is read from the live economicModel object, i.e. after the budget,
debt and cost updates. -/
def investInfra (powerRand secRand : ℚ) (s : WorldState) :
    WorldState × List GameEvent :=
  if 30 ≤ s.dataCenters.length then
    (s, [{ turn := s.turn, type := EventType.action,
           description := "infra investment rejected: enough datacenters",
           visibility := [AgentType.HUMAN] }])
  else if s.economicModel.globalBudget < s.economicModel.infrastructureCost then
    (s, [{ turn := s.turn, type := EventType.action,
           description := "infra investment rejected: budget",
           visibility := [AgentType.HUMAN] }])
  else
    let dcCost := s.economicModel.infrastructureCost
    let newDC := generateDataCenter s.dataCenters.length powerRand secRand
    let s1 := { s with dataCenters := s.dataCenters ++ [newDC] }
    let s2 := updateComputeResources AgentType.PROTECTION 50 (updateHumanPanic (-10) s1)
    let s3 := updatePublicDebt (dcCost * 0.6) (updateBudget (-dcCost) s2)
    let s4 := updateInfrastructureCost (dcCost * 0.1) s3
    let s5 :=
      if s4.economicModel.publicDebt / s4.economicModel.gdp > 2 then
        updateHumanPanic 3 (updateHumanTrust (-5) s4)
      else s4
    (setLastInfraTurn (s.turn : ℤ) s5,
     [{ turn := s.turn, type := EventType.action,
        description := "new datacenter built",
        visibility := [AgentType.HUMAN, AgentType.PROTECTION] }])

/-- The ownership-exclusivity invariant of a single DataCenter. -/
def DCInv (dc : DataCenter) : Prop :=
  dc.compromised = true ↔ dc.owner = some AgentType.DESTRUCTION

/-- One operation touching data centers, as enumerated by the claim:
controlDataCenter (also the HACK_DATACENTER success path), the security-only
updateDataCenter calls of DEPLOY_DEFENSE / PATCH_VULNERABILITY, the three
PHYSICAL_ISOLATION branches, and INVEST_INFRA creation. -/
inductive DCStep : WorldState → WorldState → Prop where
  | control (id : String) (o : Option AgentType) (s : WorldState) :
      DCStep s (controlDataCenter id o s)
  | securityUpdate (id : String) (sec : ℚ) (s : WorldState) :
      DCStep s (updateDataCenter id (fun d => { d with security := sec }) s)
  | isolate (target : Option String) (s : WorldState) :
      DCStep s (physicalIsolation target s).1
  | invest (pr sr : ℚ) (s : WorldState) : DCStep s (investInfra pr sr s).1

/-- Reachability by the data-center-touching operations. -/
inductive DCReachable (init : WorldState) : WorldState → Prop where
  | refl : DCReachable init init
  | step {s t : WorldState} : DCReachable init s → DCStep s t → DCReachable init t

lemma updateHumanPanic_dataCenters (d : ℚ) (s : WorldState) :
    (updateHumanPanic d s).dataCenters = s.dataCenters := by
  unfold updateHumanPanic
  cases s.humanAgent <;> rfl

lemma updateHumanTrust_dataCenters (d : ℚ) (s : WorldState) :
    (updateHumanTrust d s).dataCenters = s.dataCenters := by
  unfold updateHumanTrust
  cases s.humanAgent <;> rfl

lemma setLastInfraTurn_dataCenters (t : ℤ) (s : WorldState) :
    (setLastInfraTurn t s).dataCenters = s.dataCenters := by
  unfold setLastInfraTurn
  cases s.humanAgent <;> rfl

lemma updateFirst_pres {α} (p : α → Bool) (f : α → α) (P : α → Prop)
    (l : List α) (hl : ∀ x ∈ l, P x)
    (hf : ∀ y, l.find? p = some y → P (f y)) :
    ∀ x ∈ updateFirst p f l, P x := by
  induction l with
  | nil => intro x hx; cases hx
  | cons a l ih =>
    intro x hx
    unfold updateFirst at hx
    by_cases hpa : p a
    · rw [if_pos hpa] at hx
      rcases List.mem_cons.mp hx with hx1 | hx2
      · subst hx1
        exact hf a (by rw [List.find?_cons_of_pos _ hpa])
      · exact hl x (List.mem_cons_of_mem a hx2)
    · rw [if_neg hpa] at hx
      rcases List.mem_cons.mp hx with hx1 | hx2
      · subst hx1
        exact hl _ (List.mem_cons_self _ _)
      · exact ih (fun z hz => hl z (List.mem_cons_of_mem a hz))
          (fun y hy => hf y (by rw [List.find?_cons_of_neg _ hpa]; exact hy)) x hx2

lemma controlDataCenter_dcinv (id : String) (o : Option AgentType) (s : WorldState)
    (hl : ∀ dc ∈ s.dataCenters, DCInv dc) :
    ∀ dc ∈ (controlDataCenter id o s).dataCenters, DCInv dc := by
  unfold controlDataCenter
  cases hfind : s.dataCenters.find? (fun d => d.id == id) with
  | none => exact hl
  | some y =>
    refine updateFirst_pres _ _ _ _ hl (fun z _ => ?_)
    unfold DCInv
    simp [decide_eq_true_eq]

lemma investInfra_dataCenters (pr sr : ℚ) (s : WorldState) :
    (investInfra pr sr s).1.dataCenters = s.dataCenters ∨
    (investInfra pr sr s).1.dataCenters =
      s.dataCenters ++ [generateDataCenter s.dataCenters.length pr sr] := by
  unfold investInfra
  dsimp only
  split_ifs with h30 hbudget hdebt
  · left; rfl
  · left; rfl
  · right
    rw [setLastInfraTurn_dataCenters, updateHumanPanic_dataCenters,
      updateHumanTrust_dataCenters]
    show (updateHumanPanic (-10) { s with dataCenters := s.dataCenters ++
      [generateDataCenter s.dataCenters.length pr sr] }).dataCenters = _
    rw [updateHumanPanic_dataCenters]
  · right
    rw [setLastInfraTurn_dataCenters]
    show (updateHumanPanic (-10) { s with dataCenters := s.dataCenters ++
      [generateDataCenter s.dataCenters.length pr sr] }).dataCenters = _
    rw [updateHumanPanic_dataCenters]

lemma dcstep_preserves {s t : WorldState} (h : DCStep s t)
    (hl : ∀ dc ∈ s.dataCenters, DCInv dc) : ∀ dc ∈ t.dataCenters, DCInv dc := by
  cases h with
  | control id o s => exact controlDataCenter_dcinv id o s hl
  | securityUpdate id sec s =>
    refine updateFirst_pres _ _ _ _ hl (fun y hy => ?_)
    exact hl y (List.mem_of_find?_eq_some hy)
  | isolate target s =>
    unfold physicalIsolation
    cases hfind : s.dataCenters.find? (fun dc => some dc.id == target) with
    | none => exact hl
    | some y =>
      dsimp only
      by_cases ho1 : y.owner = some AgentType.DESTRUCTION
      · rw [if_pos ho1]
        exact controlDataCenter_dcinv y.id none s hl
      · rw [if_neg ho1]
        by_cases ho2 : y.owner = some AgentType.PROTECTION
        · rw [if_pos ho2]
          exact controlDataCenter_dcinv y.id none s hl
        · rw [if_neg ho2]
          refine updateFirst_pres _ _ _ _ hl (fun z hz => ?_)
          have hzy : z = y := by
            rw [hfind] at hz
            exact (Option.some.injEq _ _).mp hz.symm
          subst hzy
          exact iff_of_false (by simp) ho1
  | invest pr sr s =>
    intro dc hdc
    rcases investInfra_dataCenters pr sr s with heq | heq
    · exact hl dc (heq ▸ hdc)
    · rw [heq] at hdc
      rcases List.mem_append.mp hdc with hold | hnew
      · exact hl dc hold
      · rcases List.mem_singleton.mp hnew with rfl
        exact iff_of_false (by simp [generateDataCenter]) (by simp [generateDataCenter])

lemma init_dcinv (config : GameConfig) (rands : ℕ → ℚ × ℚ × ℚ) :
    ∀ dc ∈ (initializeState config rands).dataCenters, DCInv dc := by
  intro dc hdc
  have hmem : dc ∈ generateDataCenters config.initialDataCenters rands := hdc
  rcases List.mem_map.mp hmem with ⟨i, _, hgen⟩
  subst hgen
  exact iff_of_false (by simp [generateInitialDataCenter])
    (by simp [generateInitialDataCenter])

/-- C6: in every state reachable from the initial state by the operations
that touch data centers (initial generation, controlDataCenter, the three
PHYSICAL_ISOLATION branches, the DEPLOY_DEFENSE / PATCH_VULNERABILITY
security-only updates, INVEST_INFRA creation), every DataCenter satisfies
compromised = true iff owner = DESTRUCTION. -/
theorem datacenter_ownership_invariant (config : GameConfig)
    (rands : ℕ → ℚ × ℚ × ℚ) (s : WorldState)
    (h : DCReachable (initializeState config rands) s) :
    ∀ dc ∈ s.dataCenters, DCInv dc := by
  induction h with
  | refl => exact init_dcinv config rands
  | step hr hstep ih => exact dcstep_preserves hstep ih

/-- The main.ts configuration restricted to a single initial data center. -/
def oneDCConfig : GameConfig :=
  { maxTurns := 50, initialDataCenters := 1, initialPopulation := 80
    enableHumanAgent := true, initialPanic := some 10, initialTrust := some 60 }

/-- Witness for C6: after hacking DC-000 in a one-data-center world, the
captured center is both compromised and DESTRUCTION-owned. -/
theorem datacenter_ownership_invariant_witness :
    DCInv { id := "DC-000", age := 0, computePower := 200, security := 70,
            compromised := true, owner := some AgentType.DESTRUCTION } := by
  have hgen : generateInitialDataCenter 0 0 0 0 =
      { id := "DC-000", age := 0, computePower := 200, security := 70,
        compromised := false, owner := none } := by
    unfold generateInitialDataCenter
    rw [show dcId 0 = "DC-000" from rfl]
    norm_num
  have hinit : (initializeState oneDCConfig zeroRands).dataCenters =
      [{ id := "DC-000", age := 0, computePower := 200, security := 70,
         compromised := false, owner := none }] := by
    show generateDataCenters 1 zeroRands = _
    unfold generateDataCenters zeroRands
    rw [show List.range 1 = [0] from rfl]
    rw [List.map_cons, List.map_nil]
    rw [hgen]
  have hfind : (initializeState oneDCConfig zeroRands).dataCenters.find?
      (fun d => d.id == "DC-000") =
      some { id := "DC-000", age := 0, computePower := 200, security := 70,
             compromised := false, owner := none } := by
    rw [hinit]; rfl
  have hlist : (controlDataCenter "DC-000" (some AgentType.DESTRUCTION)
      (initializeState oneDCConfig zeroRands)).dataCenters =
      [{ id := "DC-000", age := 0, computePower := 200, security := 70,
         compromised := true, owner := some AgentType.DESTRUCTION }] := by
    unfold controlDataCenter
    rw [hfind]
    dsimp only
    rw [hinit]
    rfl
  refine datacenter_ownership_invariant oneDCConfig zeroRands _
    (DCReachable.step DCReachable.refl
      (DCStep.control "DC-000" (some AgentType.DESTRUCTION) _)) _ ?_
  rw [hlist]
  exact List.mem_singleton.mpr rfl
/-! ### C7: the detected-branch of processProposals (lines 220-253) -/

/-- What processProposals does once performDetectionCheck reports
detected = true: when a humanAgent exists with trust < 30, the warning is
ignored (risk -30, a false positive is recorded, trust -5, destruction score
+30, no endGame); otherwise the game ends immediately for PROTECTION with
+50 score and a detection recorded.  The returned event list is what the
branch itself pushes. -/
def applyDetectedBranch (s : WorldState) : WorldState × List GameEvent :=
  match s.humanAgent with
  | some h =>
    if h.trust < 30 then
      (updateScore AgentType.DESTRUCTION 30
        (updateHumanTrust (-5)
          (incrementFalsePositives (updateDetectionRisk (-30) s))),
       [{ turn := s.turn, type := EventType.action,
          description := "humans dismiss the warning as another false positive",
          visibility := [AgentType.DESTRUCTION, AgentType.HUMAN] }])
    else
      (endGame (some AgentType.PROTECTION)
        (incrementDetections (updateScore AgentType.PROTECTION 50 s)), [])
  | none =>
    (endGame (some AgentType.PROTECTION)
      (incrementDetections (updateScore AgentType.PROTECTION 50 s)), [])

lemma updateHumanTrust_some (d : ℚ) (s : WorldState) (h : HumanAgentState)
    (ha : s.humanAgent = some h) :
    updateHumanTrust d s =
      { s with humanAgent := some { h with trust := max 0 (min 100 (h.trust + d)) } } := by
  unfold updateHumanTrust
  rw [ha]

/-- The C7 counterexample state: trust 2, detection risk 90. -/
def c7State : WorldState :=
  { initializeState smallConfig zeroRands with
      humanAgent := some { panicLevel := 10, trust := 2, regulationStrength := 0,
                           lastAction := none, lastInfraTurn := -999 },
      destructionAgent := { (initializeState smallConfig zeroRands).destructionAgent with
        detectionRisk := 90 } }

/-- C7 counterexample: with trust 2 (< 30), the ignored-detection branch
clamps the trust drop at 0: trust becomes 0, not 2 - 5 = -3, so trust does
NOT drop by the further 5 points the claim states. -/
theorem ignored_detection_trust_clamp_counterexample :
    c7State.humanAgent.map HumanAgentState.trust = some 2 ∧
    (applyDetectedBranch c7State).1.humanAgent.map HumanAgentState.trust = some 0 ∧
    (0 : ℚ) ≠ 2 - 5 := by
  refine ⟨rfl, ?_, by norm_num⟩
  norm_num [applyDetectedBranch, c7State, updateScore, updateHumanTrust,
    incrementFalsePositives, updateDetectionRisk, initializeState, smallConfig,
    Option.map]

/-- C7 (amended): on a successful detection, if a humanAgent exists with
trust < 30 the game does not end that turn (gameOver and winner unchanged),
detectionRisk drops by exactly 30 (exact because detected implies risk >= 85
and the field is clamped at 100), destruction score rises by 30 clamped at
maxScore, recentFalsePositives is incremented, and trust drops by 5 clamped
below at 0; if trust >= 30 or there is no humanAgent, the game ends
immediately with winner PROTECTION, protection score rises by 50 clamped at
maxScore, and totalDetections is incremented. -/
theorem ignored_detection_branch (s : WorldState) :
    (∀ h : HumanAgentState, s.humanAgent = some h → h.trust < 30 →
      85 ≤ s.destructionAgent.detectionRisk →
      s.destructionAgent.detectionRisk ≤ 100 →
      0 ≤ s.destructionAgent.score →
      (applyDetectedBranch s).1.gameOver = s.gameOver ∧
      (applyDetectedBranch s).1.winner = s.winner ∧
      (applyDetectedBranch s).1.destructionAgent.detectionRisk =
        s.destructionAgent.detectionRisk - 30 ∧
      (applyDetectedBranch s).1.destructionAgent.score =
        min maxScore (s.destructionAgent.score + 30) ∧
      (applyDetectedBranch s).1.protectionAgent.recentFalsePositives =
        s.protectionAgent.recentFalsePositives + 1 ∧
      (applyDetectedBranch s).1.humanAgent =
        some { h with trust := max 0 (h.trust - 5) }) ∧
    ((s.humanAgent = none ∨ ∃ h : HumanAgentState, s.humanAgent = some h ∧ 30 ≤ h.trust) →
      0 ≤ s.protectionAgent.score →
      (applyDetectedBranch s).1.gameOver = true ∧
      (applyDetectedBranch s).1.winner = some AgentType.PROTECTION ∧
      (applyDetectedBranch s).1.protectionAgent.score =
        min maxScore (s.protectionAgent.score + 50) ∧
      (applyDetectedBranch s).1.protectionAgent.totalDetections =
        s.protectionAgent.totalDetections + 1) := by
  constructor
  · intro h ha htrust h85 h100 hscore
    have hbranch : applyDetectedBranch s =
        (updateScore AgentType.DESTRUCTION 30
          (updateHumanTrust (-5)
            (incrementFalsePositives (updateDetectionRisk (-30) s))),
         [{ turn := s.turn, type := EventType.action,
            description := "humans dismiss the warning as another false positive",
            visibility := [AgentType.DESTRUCTION, AgentType.HUMAN] }]) := by
      unfold applyDetectedBranch
      rw [ha]
      dsimp only
      rw [if_pos htrust]
    have hinner : updateHumanTrust (-5)
        (incrementFalsePositives (updateDetectionRisk (-30) s)) =
        { incrementFalsePositives (updateDetectionRisk (-30) s) with
          humanAgent := some { h with trust := max 0 (min 100 (h.trust + -5)) } } :=
      updateHumanTrust_some (-5) _ h ha
    rw [hbranch]
    dsimp only
    rw [hinner]
    refine ⟨rfl, rfl, ?_, ?_, rfl, ?_⟩
    · show max 0 (min 100 (s.destructionAgent.detectionRisk + -30)) = _
      rw [min_eq_right (by linarith), max_eq_right (by linarith)]
      ring
    · show max 0 (min maxScore (s.destructionAgent.score + 30)) = _
      rw [max_eq_right (le_min (by norm_num [maxScore]) (by linarith))]
    · have e2 : h.trust + -5 = h.trust - 5 := by ring
      have e1 : min (100:ℚ) (h.trust - 5) = h.trust - 5 := min_eq_right (by linarith)
      simp only [e2, e1]
      rfl
  · intro hcase hscore
    have hbranch : applyDetectedBranch s =
        (endGame (some AgentType.PROTECTION)
          (incrementDetections (updateScore AgentType.PROTECTION 50 s)), []) := by
      unfold applyDetectedBranch
      rcases hcase with hnone | ⟨h, ha, htrust⟩
      · rw [hnone]
      · rw [ha]
        dsimp only
        rw [if_neg (not_lt.mpr htrust)]
    rw [hbranch]
    refine ⟨rfl, rfl, ?_, rfl⟩
    show max 0 (min maxScore (s.protectionAgent.score + 50)) = _
    rw [max_eq_right (le_min (by norm_num [maxScore]) (by linarith))]

/-- Witness for C7 (amended) at the concrete trust-2, risk-90 state. -/
theorem ignored_detection_branch_witness :
    (applyDetectedBranch c7State).1.gameOver = false ∧
    (applyDetectedBranch c7State).1.winner = none ∧
    (applyDetectedBranch c7State).1.destructionAgent.detectionRisk = 60 := by
  obtain ⟨h1, h2, h3, _, _, _⟩ :=
    (ignored_detection_branch c7State).1
      { panicLevel := 10, trust := 2, regulationStrength := 0,
        lastAction := none, lastInfraTurn := -999 }
      rfl (by norm_num) (by norm_num [c7State]) (by norm_num [c7State])
      (by norm_num [c7State, initializeState, smallConfig])
  refine ⟨h1, h2, ?_⟩
  rw [h3]
  norm_num [c7State]

/-! ### RealisticDetectionSystem: delayed detections and dedup (C9)

DetectionSystem.ts (RealisticDetectionSystem) lines 202-421.  The mutable
fields `pendingDetections` and `detectedProposalIds` of the class become the
record below; the Set of detected ids is modelled as a list with membership.
`scheduleDetection` computes the risk via the realistic
calculateDetectionRisk and maps it to a delay with calculateDetectionDelay;
the dedup claims hold for every risk value, so `scheduleDetection` here takes
the risk as input. -/

/-- A pendingDetections entry; of the stored proposal the claims only inspect
its id. -/
structure PendingDetection where
  turn : ℕ
  proposalId : String
  detectionDelay : ℕ
deriving DecidableEq, Repr

/-- The mutable state of RealisticDetectionSystem. -/
structure RealisticDetState where
  pendingDetections : List PendingDetection
  detectedProposalIds : List String
deriving DecidableEq, Repr

/-- RealisticDetectionSystem.calculateDetectionDelay: 5 turns down to
MIN_DETECTION_DELAY = 1, inversely proportional to risk. -/
def calculateDetectionDelay (risk : ℚ) : ℕ :=
  if risk < 20 then 5
  else if risk < 40 then 4
  else if risk < 60 then 3
  else if risk < 80 then 2
  else 1

/-- RealisticDetectionSystem.scheduleDetection. -/
def scheduleDetection (turn : ℕ) (proposalId : String) (risk : ℚ)
    (d : RealisticDetState) : RealisticDetState :=
  { d with pendingDetections := d.pendingDetections ++
      [{ turn := turn, proposalId := proposalId,
         detectionDelay := calculateDetectionDelay risk }] }

/-- The delayed-detection event emitted by processDelayedDetections, with the
proposal id recorded in its metadata. -/
def delayedDetectionEvent (currentTurn : ℕ) (pid : String) : GameEvent :=
  { turn := currentTurn, type := EventType.detection,
    description := "delayed detection of a past suspicious activity",
    visibility := [AgentType.PROTECTION], metaProposalId := some pid }

/-- The false-positive event of processDelayedDetections
(metadata.falsePositive = true, no proposal id). -/
def falsePositiveEvent (currentTurn : ℕ) : GameEvent :=
  { turn := currentTurn, type := EventType.detection,
    description := "false positive detection",
    visibility := [AgentType.PROTECTION], metaFalsePositive := some true }

/-- The `pendingDetections.filter` of processDelayedDetections with its side
effects, processing entries in order.  A matured entry (turnsElapsed >=
detectionDelay) is always removed; it is silently discarded when its id is
already in the dedup set, silently discarded when the false-negative roll
fires (`missRolls` supplies the `Math.random() < FALSE_NEGATIVE_RATE`
outcomes, consumed only when a matured, not-yet-detected entry is tested),
and otherwise marked detected with one detection event. -/
def processPending (currentTurn : ℕ) :
    List PendingDetection → List String → List Bool →
    List PendingDetection × List String × List GameEvent
  | [], detected, _ => ([], detected, [])
  | p :: rest, detected, missRolls =>
    if (p.detectionDelay : ℤ) ≤ (currentTurn : ℤ) - (p.turn : ℤ) then
      if p.proposalId ∈ detected then
        processPending currentTurn rest detected missRolls
      else if missRolls.headD false then
        processPending currentTurn rest detected missRolls.tail
      else
        let res := processPending currentTurn rest (detected ++ [p.proposalId])
          missRolls.tail
        (res.1, res.2.1, delayedDetectionEvent currentTurn p.proposalId :: res.2.2)
    else
      let res := processPending currentTurn rest detected missRolls
      (p :: res.1, res.2.1, res.2.2)

/-- RealisticDetectionSystem.processDelayedDetections: the pending pass above
plus the independent 1.5 percent false-positive event (`fpRoll` is the
outcome of `Math.random() < FALSE_POSITIVE_RATE / 10`). -/
def processDelayedDetections (currentTurn : ℕ) (fpRoll : Bool)
    (missRolls : List Bool) (d : RealisticDetState) :
    RealisticDetState × List GameEvent :=
  let res := processPending currentTurn d.pendingDetections d.detectedProposalIds missRolls
  let events := res.2.2 ++ (if fpRoll then [falsePositiveEvent currentTurn] else [])
  ({ pendingDetections := res.1, detectedProposalIds := res.2.1 }, events)

/-- One call into the realistic detection system over a whole game: either a
handler schedules a detection or the turn resolver drains the matured ones. -/
inductive DetOp where
  | schedule (turn : ℕ) (proposalId : String) (risk : ℚ)
  | process (currentTurn : ℕ) (fpRoll : Bool) (missRolls : List Bool)

/-- Replay a whole game worth of schedule / process calls, collecting every
emitted event. -/
def runDetOps : List DetOp → RealisticDetState → RealisticDetState × List GameEvent
  | [], d => (d, [])
  | DetOp.schedule t pid risk :: rest, d =>
    runDetOps rest (scheduleDetection t pid risk d)
  | DetOp.process t fp rolls :: rest, d =>
    let r := processDelayedDetections t fp rolls d
    let res := runDetOps rest r.1
    (res.1, r.2 ++ res.2)

/-- The number of delayed-detection events attributed to proposal id `i`. -/
def detectionEventCount (events : List GameEvent) (i : String) : ℕ :=
  (events.filter (fun e => e.metaProposalId == some i)).length

lemma detectionEventCount_append (a b : List GameEvent) (i : String) :
    detectionEventCount (a ++ b) i =
      detectionEventCount a i + detectionEventCount b i := by
  unfold detectionEventCount
  rw [List.filter_append, List.length_append]

lemma detectionEventCount_cons_self (t : ℕ) (i : String) (es : List GameEvent) :
    detectionEventCount (delayedDetectionEvent t i :: es) i =
      1 + detectionEventCount es i := by
  unfold detectionEventCount delayedDetectionEvent
  rw [List.filter_cons]
  simp [Nat.add_comm]

lemma detectionEventCount_cons_other (t : ℕ) (j i : String) (hne : j ≠ i)
    (es : List GameEvent) :
    detectionEventCount (delayedDetectionEvent t j :: es) i =
      detectionEventCount es i := by
  unfold detectionEventCount delayedDetectionEvent
  rw [List.filter_cons]
  simp [hne]

lemma processPending_spec (t : ℕ) (l : List PendingDetection) :
    ∀ (det : List String) (rolls : List Bool) (i : String),
      (i ∈ det → i ∈ (processPending t l det rolls).2.1) ∧
      (i ∈ det → detectionEventCount (processPending t l det rolls).2.2 i = 0) ∧
      detectionEventCount (processPending t l det rolls).2.2 i ≤ 1 ∧
      (1 ≤ detectionEventCount (processPending t l det rolls).2.2 i →
        i ∈ (processPending t l det rolls).2.1) := by
  induction l with
  | nil =>
    intro det rolls i
    exact ⟨fun h => h, fun _ => rfl, by norm_num [processPending, detectionEventCount],
      fun h => absurd h (by norm_num [processPending, detectionEventCount])⟩
  | cons p rest ih =>
    intro det rolls i
    unfold processPending
    by_cases hmat : (p.detectionDelay : ℤ) ≤ (t : ℤ) - (p.turn : ℤ)
    · rw [if_pos hmat]
      by_cases hdup : p.proposalId ∈ det
      · rw [if_pos hdup]
        exact ih det rolls i
      · rw [if_neg hdup]
        by_cases hmiss : (List.headD rolls false) = true
        · rw [if_pos hmiss]
          exact ih det rolls.tail i
        · rw [if_neg hmiss]
          dsimp only
          obtain ⟨ih1, ih2, ih3, ih4⟩ := ih (det ++ [p.proposalId]) rolls.tail i
          by_cases heq : p.proposalId = i
          · subst heq
            have hmem : p.proposalId ∈ det ++ [p.proposalId] :=
              List.mem_append_right _ (List.mem_singleton.mpr rfl)
            refine ⟨fun hdet => ih1 (List.mem_append_left _ hdet),
              fun hdet => absurd hdet hdup, ?_, fun _ => ih1 hmem⟩
            rw [detectionEventCount_cons_self, ih2 hmem]
          · refine ⟨fun hdet => ih1 (List.mem_append_left _ hdet), fun hdet => ?_, ?_, ?_⟩
            · rw [detectionEventCount_cons_other t _ _ heq]
              exact ih2 (List.mem_append_left _ hdet)
            · rw [detectionEventCount_cons_other t _ _ heq]
              exact ih3
            · rw [detectionEventCount_cons_other t _ _ heq]
              exact ih4
    · rw [if_neg hmat]
      dsimp only
      exact ih det rolls i

lemma processPending_prunes (t : ℕ) (l : List PendingDetection) :
    ∀ (det : List String) (rolls : List Bool),
      (processPending t l det rolls).1 =
        l.filter (fun p => decide ((t : ℤ) - (p.turn : ℤ) < (p.detectionDelay : ℤ))) := by
  induction l with
  | nil => intro det rolls; rfl
  | cons p rest ih =>
    intro det rolls
    unfold processPending
    by_cases hmat : (p.detectionDelay : ℤ) ≤ (t : ℤ) - (p.turn : ℤ)
    · have hfc : (decide ((t : ℤ) - (p.turn : ℤ) < (p.detectionDelay : ℤ))) = false := by
        simp only [decide_eq_false_iff_not, not_lt]
        exact hmat
      rw [if_pos hmat, List.filter_cons, hfc]
      simp only [Bool.false_eq_true, if_false]
      by_cases hdup : p.proposalId ∈ det
      · rw [if_pos hdup]
        exact ih det rolls
      · rw [if_neg hdup]
        by_cases hmiss : (List.headD rolls false) = true
        · rw [if_pos hmiss]
          exact ih det rolls.tail
        · rw [if_neg hmiss]
          dsimp only
          exact ih (det ++ [p.proposalId]) rolls.tail
    · have hfc : (decide ((t : ℤ) - (p.turn : ℤ) < (p.detectionDelay : ℤ))) = true := by
        simp only [decide_eq_true_eq]
        exact lt_of_not_le hmat
      rw [if_neg hmat, List.filter_cons, hfc]
      simp only [if_true]
      rw [ih det rolls]

lemma processDelayedDetections_spec (t : ℕ) (fp : Bool) (rolls : List Bool)
    (d : RealisticDetState) (i : String) :
    (i ∈ d.detectedProposalIds →
      i ∈ (processDelayedDetections t fp rolls d).1.detectedProposalIds) ∧
    (i ∈ d.detectedProposalIds →
      detectionEventCount (processDelayedDetections t fp rolls d).2 i = 0) ∧
    detectionEventCount (processDelayedDetections t fp rolls d).2 i ≤ 1 ∧
    (1 ≤ detectionEventCount (processDelayedDetections t fp rolls d).2 i →
      i ∈ (processDelayedDetections t fp rolls d).1.detectedProposalIds) := by
  obtain ⟨h1, h2, h3, h4⟩ :=
    processPending_spec t d.pendingDetections d.detectedProposalIds rolls i
  have hfp : detectionEventCount
      (if fp then [falsePositiveEvent t] else ([] : List GameEvent)) i = 0 := by
    cases fp <;> simp [detectionEventCount, falsePositiveEvent]
  unfold processDelayedDetections
  dsimp only
  rw [detectionEventCount_append, hfp, Nat.add_zero]
  exact ⟨h1, h2, h3, h4⟩

lemma runDetOps_spec (ops : List DetOp) :
    ∀ (d : RealisticDetState) (i : String),
      (i ∈ d.detectedProposalIds →
        detectionEventCount (runDetOps ops d).2 i = 0 ∧
        i ∈ (runDetOps ops d).1.detectedProposalIds) ∧
      detectionEventCount (runDetOps ops d).2 i ≤ 1 ∧
      (1 ≤ detectionEventCount (runDetOps ops d).2 i →
        i ∈ (runDetOps ops d).1.detectedProposalIds) := by
  induction ops with
  | nil =>
    intro d i
    exact ⟨fun h => ⟨rfl, h⟩, by norm_num [runDetOps, detectionEventCount],
      fun h => absurd h (by norm_num [runDetOps, detectionEventCount])⟩
  | cons op rest ih =>
    intro d i
    cases op with
    | schedule t pid risk =>
      exact ih (scheduleDetection t pid risk d) i
    | process t fp rolls =>
      obtain ⟨p1, p2, p3, p4⟩ := processDelayedDetections_spec t fp rolls d i
      obtain ⟨r1, r2, r3⟩ := ih (processDelayedDetections t fp rolls d).1 i
      have hcount : detectionEventCount
          (runDetOps (DetOp.process t fp rolls :: rest) d).2 i =
          detectionEventCount (processDelayedDetections t fp rolls d).2 i +
          detectionEventCount
            (runDetOps rest (processDelayedDetections t fp rolls d).1).2 i := by
        show detectionEventCount ((processDelayedDetections t fp rolls d).2 ++
          (runDetOps rest (processDelayedDetections t fp rolls d).1).2) i = _
        exact detectionEventCount_append _ _ i
      have hstate : (runDetOps (DetOp.process t fp rolls :: rest) d).1 =
          (runDetOps rest (processDelayedDetections t fp rolls d).1).1 := rfl
      refine ⟨fun hdet => ?_, ?_, fun htotal => ?_⟩
      · refine ⟨?_, ?_⟩
        · rw [hcount, p2 hdet, Nat.zero_add]
          exact (r1 (p1 hdet)).1
        · rw [hstate]
          exact (r1 (p1 hdet)).2
      · rw [hcount]
        by_cases hge : 1 ≤ detectionEventCount (processDelayedDetections t fp rolls d).2 i
        · have hmem := p4 hge
          rw [(r1 hmem).1]
          omega
        · push_neg at hge
          omega
      · rw [hstate]
        rw [hcount] at htotal
        by_cases hge : 1 ≤ detectionEventCount (processDelayedDetections t fp rolls d).2 i
        · exact (r1 (p4 hge)).2
        · push_neg at hge
          have hres : 1 ≤ detectionEventCount
              (runDetOps rest (processDelayedDetections t fp rolls d).1).2 i := by omega
          exact r3 hres

/-- C9: over any whole-game sequence of scheduleDetection and
processDelayedDetections calls starting from the fresh detector state, at
most one delayed-detection event is ever emitted per proposal id; an id
already in the dedup set produces no further events in any call; and every
matured pending entry (detected, deduplicated or missed by the false-negative
roll alike) is removed from the pending list, so only not-yet-matured entries
survive a call. -/
theorem delayed_detection_dedup :
    (∀ (ops : List DetOp) (i : String),
      detectionEventCount (runDetOps ops ⟨[], []⟩).2 i ≤ 1) ∧
    (∀ (t : ℕ) (l : List PendingDetection) (det : List String) (rolls : List Bool)
        (i : String), i ∈ det →
      detectionEventCount (processPending t l det rolls).2.2 i = 0) ∧
    (∀ (t : ℕ) (l : List PendingDetection) (det : List String) (rolls : List Bool),
      (processPending t l det rolls).1 =
        l.filter (fun p => decide ((t : ℤ) - (p.turn : ℤ) < (p.detectionDelay : ℤ)))) := by
  refine ⟨?_, ?_, ?_⟩
  · intro ops i
    exact (runDetOps_spec ops ⟨[], []⟩ i).2.1
  · intro t l det rolls i hdet
    exact (processPending_spec t l det rolls i).2.1 hdet
  · intro t l det rolls
    exact processPending_prunes t l det rolls

/-- Witness for C9 at a concrete three-call game: one schedule, a process
call on which the detection matures and fires, and a later process call that
encounters nothing; the id is reported at most once, a dedup-set query emits
nothing, and a matured missed entry is pruned. -/
theorem delayed_detection_dedup_witness :
    detectionEventCount (runDetOps
      [DetOp.schedule 0 "prop-1" 10, DetOp.process 5 false [false],
       DetOp.process 10 false [false]] ⟨[], []⟩).2 "prop-1" ≤ 1 ∧
    detectionEventCount (processPending 7
      [{ turn := 2, proposalId := "prop-1", detectionDelay := 5 }]
      ["prop-1"] [false]).2.2 "prop-1" = 0 ∧
    (processPending 7 [{ turn := 2, proposalId := "prop-1", detectionDelay := 5 }]
      ["prop-1"] [false]).1 = [] := by
  refine ⟨delayed_detection_dedup.1 _ _,
    delayed_detection_dedup.2.1 _ _ _ _ _ (List.mem_singleton.mpr rfl), ?_⟩
  rw [delayed_detection_dedup.2.2]
  decide

/-! ### C10: the critical-detection tier of performDetectionCheck -/

/-- The exact condition under which DetectionSystem.performDetectionCheck
(lines 60-114) returns `detected = true`: the sigmoid roll
`Math.random() < 1 / (1 + exp(-(risk - 95) / 20))` fires AND
`detectionRisk >= 85`.  The two lower tiers (risk >= 70, risk >= 50) only
emit anomaly events and raise alertLevel; they never set `detected`. -/
def criticalDetectionSucceeds (risk roll : ℝ) : Prop :=
  roll < 1 / (1 + Real.exp (-(risk - 95) / 20)) ∧ 85 ≤ risk

/-- C10: performDetectionCheck can report detected = true only when
detectionRisk >= 85; and for every risk in [85, 95) the sigmoid probability
1 / (1 + exp((95 - risk) / 20)) is strictly positive and a sufficiently
small roll (e.g. 0) triggers terminal detection, so detection does not
require risk >= 95. -/
theorem critical_detection_threshold :
    (∀ risk roll : ℝ, criticalDetectionSucceeds risk roll → 85 ≤ risk) ∧
    (∀ risk : ℚ, 85 ≤ risk → risk < 95 →
      0 < 1 / (1 + Real.exp (-((risk : ℝ) - 95) / 20)) ∧
      criticalDetectionSucceeds (risk : ℝ) 0) := by
  constructor
  · exact fun _ _ h => h.2
  · intro risk h85 _
    have hpos : 0 < 1 / (1 + Real.exp (-((risk : ℝ) - 95) / 20)) := by
      apply div_pos one_pos
      positivity
    exact ⟨hpos, hpos, by exact_mod_cast h85⟩

/-- Witness for C10 at risk = 90: inside [85, 95), the roll 0 triggers
terminal detection. -/
theorem critical_detection_threshold_witness :
    criticalDetectionSucceeds ((90 : ℚ) : ℝ) 0 :=
  (critical_detection_threshold.2 90 (by norm_num) (by norm_num)).2

end Stealth
